import Mathlib

/-!
Shallow embedding of the adversarial specification verification tool:
the enhanced verifier (`spec_verifier_enhanced.py`) at top level and the
basic verifier (`spec_verifier.py`) in namespace `Basic`.  Texts are Lean
strings, Python floats are modelled exactly by rational numbers, Python
sets by deduplicated lists (their unspecified per-process iteration order
is a parameter of the run environment), and the network by a deterministic
oracle from document identifiers to fetch outcomes.
-/

/-- ASCII lower-casing of one character, as Python str.lower acts on the
ASCII documents this tool processes. -/
def lowerChar (c : Char) : Char :=
  if 'A' ≤ c ∧ c ≤ 'Z' then Char.ofNat (c.toNat + 32) else c

/-- Python str.lower. -/
def pyLower (s : String) : String := ⟨s.data.map lowerChar⟩

/-- Whitespace characters of Python str.strip / str.split and the regex class \s. -/
def pySpace (c : Char) : Bool :=
  c == ' ' || c == '\t' || c == '\n' || c == '\r' || c == '\x0b' || c == '\x0c'

/-- Word characters of the regex class \w on ASCII text. -/
def wordChar (c : Char) : Bool := c.isAlphanum || c == '_'

/-- Python len of a string (character count). -/
def pyLen (s : String) : Nat := s.data.length

/-- re.findall of \w+ over text.lower(): the maximal word-character runs of the
lower-cased text, in order. -/
def pyWords (s : String) : List String :=
  (((pyLower s).data.splitOnP (fun c => !wordChar c)).filter (fun l => !l.isEmpty)).map
    (fun l => ⟨l⟩)

/-- Prefix test on character lists (needle first). -/
def chStarts : List Char → List Char → Bool
  | [], _ => true
  | _ :: _, [] => false
  | a :: as, b :: bs => a == b && chStarts as bs

/-- Substring containment of needle in hay, on character lists. -/
def chSub (needle : List Char) : List Char → Bool
  | [] => needle.isEmpty
  | l@(_ :: t) => chStarts needle l || chSub needle t

/-- Python `needle in hay` on strings. -/
def pyIn (needle hay : String) : Bool := chSub needle.data hay.data

/-- Case-insensitive prefix test: a lower-case needle against arbitrary hay. -/
def chStartsCI (needle hay : List Char) : Bool := chStarts needle (hay.map lowerChar)

/-- Index of the first occurrence of needle, if any. -/
def chFind (needle : List Char) : List Char → Option Nat
  | [] => if needle.isEmpty then some 0 else none
  | l@(_ :: t) => if chStarts needle l then some 0 else (chFind needle t).map (· + 1)

/-- Python str.find: index of the first occurrence, -1 when absent. -/
def pyFind (hay needle : String) : Int :=
  match chFind needle.data hay.data with
  | some i => (i : Int)
  | none => -1

/-- Python str.strip(). -/
def pyStrip (s : String) : String :=
  ⟨((s.data.dropWhile pySpace).reverse.dropWhile pySpace).reverse⟩

/-- Python .rstrip with the punctuation set used by the extractor. -/
def rstripPunct (s : String) : String :=
  ⟨(s.data.reverse.dropWhile (fun c => c == '.' || c == ';' || c == ',')).reverse⟩

/-- Python s[:n]. -/
def pyTake (n : Nat) (s : String) : String := ⟨s.data.take n⟩

/-- Python str.split() with no separator: whitespace-delimited words. -/
def pySplitWs (s : String) : List String :=
  ((s.data.splitOnP pySpace).filter (fun l => !l.isEmpty)).map (fun l => ⟨l⟩)

/-- The severity enumeration of both verifiers. -/
inductive Severity
  | CRITICAL
  | HIGH
  | MEDIUM
  | LOW
  | INFO
deriving DecidableEq, Repr

/-- An original source document, as decoded by the Source Document Client. -/
structure SourceDocument where
  doc_id : String
  doc_type : String
  url : String
  title : String
  date : Option String := none
  participants : List String := []
  content : Option String := none
  fetched : Bool := false
deriving DecidableEq, Repr

/-- A verification violation of the enhanced verifier. -/
structure Violation where
  severity : Severity
  category : String
  title : String
  description : String
  evidence : List String := []
  line_numbers : List Nat := []
  related_requirements : List String := []
  source_documents : List SourceDocument := []
  deep_analysis : Option String := none
deriving DecidableEq, Repr

/-- A requirement extracted from input documents.  Tags are a Python set,
modelled as a list used only through membership. -/
structure Requirement where
  id : String
  text : String
  source : String
  line_number : Nat
  priority : String := "NORMAL"
  tags : List String := []
  source_doc_refs : List String := []
deriving DecidableEq, Repr

/-- A guiding principle from the constitution document. -/
structure Principle where
  id : String
  text : String
  category : String
  mandatory : Bool := true
  line_number : Nat := 0
deriving DecidableEq, Repr

/-- An item of the specification under verification. -/
structure SpecificationItem where
  id : String
  text : String
  line_number : Nat
  addresses_requirements : List String := []
  tags : List String := []
deriving DecidableEq, Repr

/-- Stop words of SpecificationVerifier._extract_key_terms (identical in both
source files); a Python set used only through membership. -/
def stopWords : List String :=
  ["the", "a", "an", "is", "are", "was", "were", "be", "been",
   "have", "has", "had", "do", "does", "did", "will", "would",
   "shall", "should", "must", "may", "can", "could", "not"]

/-- SpecificationVerifier._extract_key_terms (identical in both source files):
word tokens longer than 3 characters that are not stop words, duplicates kept. -/
def extract_key_terms (text : String) : List String :=
  (pyWords text).filter (fun w => decide (pyLen w > 3) && !(stopWords.contains w))

/-- Negation markers of SpecificationVerifier._are_contradictory. -/
def negations : List String :=
  ["not", "no", "never", "without", "cannot", "must not", "shall not"]

/-- SpecificationVerifier._are_contradictory (identical in both source files). -/
def are_contradictory (text1 text2 : String) : Bool :=
  let terms1 := (extract_key_terms text1).dedup
  let terms2 := (extract_key_terms text2).dedup
  let overlap := terms1.filter (fun t => terms2.contains t)
  if overlap.length < 2 then false
  else
    let n1 := negations.any (fun n => pyIn n (pyLower text1))
    let n2 := negations.any (fun n => pyIn n (pyLower text2))
    n1 != n2 && decide (overlap.length ≥ 3)

/-- The keyword set of the coverage and orphan checks: the set of word tokens
longer than 3 characters, as a deduplicated list. -/
def keywordSet (text : String) : List String :=
  ((pyWords text).filter (fun w => decide (pyLen w > 3))).dedup

/-- The concatenated lower-cased specification text used by several checks. -/
def specCorpus (specs : List SpecificationItem) : String :=
  String.intercalate " " (specs.map (fun sp => pyLower sp.text))

/-- The concatenated lower-cased requirement text used by several checks. -/
def reqCorpus (reqs : List Requirement) : String :=
  String.intercalate " " (reqs.map (fun r => pyLower r.text))

/-- Number of keywords of a text occurring (as substrings) in a corpus. -/
def keywordMatches (text corpus : String) : Nat :=
  ((keywordSet text).filter (fun w => pyIn w corpus)).length

/-- The coverage fraction matches / len(keywords); the Python float division is
modelled exactly by rational division. -/
def coverageOf (text corpus : String) : ℚ :=
  if keywordSet text = [] then 0
  else (keywordMatches text corpus : ℚ) / ((keywordSet text).length : ℚ)

/-- Requirements classified uncovered by check_requirement_coverage: a nonempty
keyword set, none of it occurring in the specification corpus (the source
compares the fraction to 0, which for a nonempty keyword set is the integer
condition matches = 0; `coverage_eq_zero_iff` below verifies the equivalence). -/
def cov_uncovered (reqs : List Requirement) (specs : List SpecificationItem) :
    List Requirement :=
  let corpus := specCorpus specs
  reqs.filter (fun r =>
    !(keywordSet r.text).isEmpty && keywordMatches r.text corpus == 0)

/-- Requirements classified partially covered: coverage strictly between 0 and
0.5.  The source compares the fraction matches/total to 0.5; the equivalent
integer condition 2 * matches < total is used here and verified by
`coverage_lt_half_iff` below. -/
def cov_partly (reqs : List Requirement) (specs : List SpecificationItem) :
    List Requirement :=
  let corpus := specCorpus specs
  reqs.filter (fun r =>
    !(keywordSet r.text).isEmpty && !(keywordMatches r.text corpus == 0) &&
      decide (2 * keywordMatches r.text corpus < (keywordSet r.text).length))

/-- Specification items flagged by check_orphaned_specifications: a nonempty
keyword set with overlap fraction below 0.3 against the requirement corpus.
The source compares the fraction to 0.3; the equivalent integer condition
10 * matches < 3 * total is used here and verified by
`coverage_lt_threeTenths_iff` below. -/
def orphaned_specs (reqs : List Requirement) (specs : List SpecificationItem) :
    List SpecificationItem :=
  let corpus := reqCorpus reqs
  specs.filter (fun sp =>
    !(keywordSet sp.text).isEmpty &&
      decide (10 * keywordMatches sp.text corpus < 3 * (keywordSet sp.text).length))

theorem coverage_eq_zero_iff {text corpus : String} (h : keywordSet text ≠ []) :
    coverageOf text corpus = 0 ↔ keywordMatches text corpus = 0 := by
  have hn : 0 < ((keywordSet text).length : ℚ) := by
    exact_mod_cast List.length_pos.2 h
  simp only [coverageOf, if_neg h]
  rw [div_eq_zero_iff]
  constructor
  · rintro (h1 | h1)
    · exact_mod_cast h1
    · exact absurd h1 hn.ne'
  · intro h1
    exact Or.inl (by exact_mod_cast h1)

theorem coverage_lt_half_iff {text corpus : String} (h : keywordSet text ≠ []) :
    coverageOf text corpus < 1 / 2 ↔
      2 * keywordMatches text corpus < (keywordSet text).length := by
  have hn : 0 < ((keywordSet text).length : ℚ) := by
    exact_mod_cast List.length_pos.2 h
  simp only [coverageOf, if_neg h]
  rw [div_lt_iff₀ hn]
  constructor
  · intro h1
    have h3 : (2 * keywordMatches text corpus : ℚ) <
        ((keywordSet text).length : ℚ) := by
      linarith
    exact_mod_cast h3
  · intro h1
    have h2 : (2 * keywordMatches text corpus : ℚ) < ((keywordSet text).length : ℚ) := by
      exact_mod_cast h1
    linarith

theorem coverage_lt_threeTenths_iff {text corpus : String} (h : keywordSet text ≠ []) :
    coverageOf text corpus < 3 / 10 ↔
      10 * keywordMatches text corpus < 3 * (keywordSet text).length := by
  have hn : 0 < ((keywordSet text).length : ℚ) := by
    exact_mod_cast List.length_pos.2 h
  simp only [coverageOf, if_neg h]
  rw [div_lt_iff₀ hn]
  constructor
  · intro h1
    have h2 : (10 : ℚ) * ((keywordMatches text corpus : ℚ)) <
        10 * (3 / 10 * ((keywordSet text).length : ℚ)) := by
      exact (mul_lt_mul_left (by norm_num : (0 : ℚ) < 10)).2 h1
    have h3 : (10 * keywordMatches text corpus : ℚ) <
        3 * ((keywordSet text).length : ℚ) := by linarith
    exact_mod_cast h3
  · intro h1
    have h2 : (10 * keywordMatches text corpus : ℚ) <
        3 * ((keywordSet text).length : ℚ) := by exact_mod_cast h1
    linarith

theorem coverage_nonneg (text corpus : String) : 0 ≤ coverageOf text corpus := by
  unfold coverageOf
  split
  · exact le_refl 0
  · positivity

/-- Leading-whitespace length of a character list. -/
def wsLen (l : List Char) : Nat := (l.takeWhile pySpace).length

/-- The trailing regex part `\s*(.+)`: greedily consume whitespace, then a
nonempty capture; backtracking surrenders one final whitespace character when
the greedy consumption would leave the capture empty. -/
def wsCapture (r : List Char) : Option (List Char) :=
  if r.isEmpty then none else some (r.drop (min (wsLen r) (r.length - 1)))

/-- The trailing regex part `\s+(.+)`: as wsCapture but at least one whitespace
character must be consumed. -/
def ws1Capture (r : List Char) : Option (List Char) :=
  if wsLen r = 0 || r.length < 2 then none
  else some (r.drop (min (wsLen r) (r.length - 1)))

/-- The part `[-:]?\s*(.+)` of requirement pattern 1: the optional separator is
taken greedily, falling back to the bare capture. -/
def dashColonCapture (r1 : List Char) : Option (List Char) :=
  (match r1 with
   | c :: r2 => if c == '-' || c == ':' then wsCapture r2 else none
   | [] => none) <|> wsCapture r1

/-- The trailing part `\s*[-:]?\s*(.+)` of requirement pattern 1.  When the rest
is all whitespace the leading `\s*` backs off one character so the capture is
the final whitespace character, as the regex engine does. -/
def tailCapture (rest : List Char) : Option (List Char) :=
  match dashColonCapture (rest.drop (wsLen rest)) with
  | some cap => some cap
  | none => if rest.isEmpty then none else some (rest.drop (rest.length - 1))

/-- Alternatives of requirement pattern 1, in the regex alternation order
(REQ|REQUIREMENT|SHALL|MUST|SHOULD|NEEDS?), lower-cased for the IGNORECASE
search; trailing optional letters expand to two alternatives tried greedily. -/
def reqTriggers : List (List Char) :=
  ["req".data, "requirement".data, "shall".data, "must".data, "should".data,
   "needs".data, "need".data]

/-- One attempt of requirement pattern 1 at the current position. -/
def reqPat1At (l : List Char) : Option (List Char) :=
  reqTriggers.foldl (fun acc t =>
    acc <|> (if chStartsCI t l then tailCapture (l.drop t.length) else none)) none

/-- re.search of requirement pattern 1: the left-most matching position wins. -/
def reqPat1 : List Char → Option (List Char)
  | [] => none
  | l@(_ :: t) => reqPat1At l <|> reqPat1 t

/-- Subject alternatives of requirement pattern 2. -/
def reqPrefixes : List (List Char) :=
  ["the system".data, "the application".data, "it".data]

/-- Modal alternatives of requirement pattern 2 (shall|must|should|needs? to). -/
def reqModals : List (List Char) :=
  ["shall".data, "must".data, "should".data, "needs to".data, "need to".data]

/-- One attempt of requirement pattern 2
`(The system|The application|It)\s+(shall|must|should|needs? to)\s+(.+)` at the
current position. -/
def reqPat2At (l : List Char) : Option (List Char) :=
  reqPrefixes.foldl (fun acc p =>
    acc <|> (if chStartsCI p l then
      let r := l.drop p.length
      let w := wsLen r
      if w = 0 then none
      else
        let r2 := r.drop w
        reqModals.foldl (fun acc2 m =>
          acc2 <|> (if chStartsCI m r2 then ws1Capture (r2.drop m.length) else none)) none
    else none)) none

/-- re.search of requirement pattern 2. -/
def reqPat2 : List Char → Option (List Char)
  | [] => none
  | l@(_ :: t) => reqPat2At l <|> reqPat2 t

/-- Obligation keywords inside the capture of requirement pattern 3. -/
def bulletKws : List (List Char) :=
  ["shall".data, "must".data, "should".data, "required".data, "necessary".data]

/-- Test of the group `.+(shall|must|should|required|necessary).+`: a keyword
occurrence with at least one character on each side. -/
def hasKwCtx (g : List Char) : Bool :=
  (List.range g.length).any (fun j =>
    decide (1 ≤ j) && bulletKws.any (fun kw =>
      chStartsCI kw (g.drop j) && decide (j + kw.length < g.length)))

/-- Backtracking loop of requirement pattern 3: the post-bullet `\s+` consumes k
characters, from its greedy maximum down to one. -/
def reqPat3Loop : Nat → List Char → Option (List Char)
  | 0, _ => none
  | k + 1, r =>
    (if hasKwCtx (r.drop (k + 1)) then some (r.drop (k + 1)) else none) <|> reqPat3Loop k r

/-- Requirement pattern 3, anchored:
`^\s*[-*]\s+(.+(shall|must|should|required|necessary).+)`. -/
def reqPat3 (l : List Char) : Option (List Char) :=
  match l.drop (wsLen l) with
  | c :: r => if c == '-' || c == '*' then reqPat3Loop (wsLen r) r else none
  | [] => none

/-- Requirement pattern 4, anchored: `^\s*\d+\.\s+(.+)`. -/
def reqPat4 (l : List Char) : Option (List Char) :=
  let rest := l.drop (wsLen l)
  let d := (rest.takeWhile Char.isDigit).length
  if d = 0 then none
  else match rest.drop d with
    | '.' :: r2 => ws1Capture r2
    | _ => none

/-- Bracketed source markers recognised by the re.sub that cleans captured
requirement text (case-sensitive, as that call passes no IGNORECASE flag). -/
def refMarks : List (List Char) :=
  ["SRC:".data, "SOURCE:".data, "DOC:".data]

/-- After an opening bracket, recognise `(SRC|SOURCE|DOC):[^\]]+\]` and return
the remainder after the closing bracket. -/
def refBody (l : List Char) : Option (List Char) :=
  refMarks.foldl (fun acc m =>
    acc <|> (if chStarts m l then
      let r := l.drop m.length
      let body := r.takeWhile (fun c => c != ']')
      if body.isEmpty then none
      else match r.drop body.length with
        | ']' :: rest => some rest
        | _ => none
    else none)) none

/-- Fuel-indexed scan deleting every source marker; the fuel is one more than
the length, enough since every step consumes at least one character. -/
def stripRefsAux : Nat → List Char → List Char
  | 0, l => l
  | _ + 1, [] => []
  | f + 1, c :: rest =>
    if c == '[' then
      match refBody rest with
      | some rest2 => stripRefsAux f rest2
      | none => c :: stripRefsAux f rest
    else c :: stripRefsAux f rest

/-- The re.sub removing source reference markers from a captured text. -/
def strip_source_refs (s : String) : String :=
  ⟨stripRefsAux (s.data.length + 1) s.data⟩

/-- The text computed by DocumentParser.extract_requirements for one line: lines
shorter than 10 characters after stripping are skipped; the first of the four
requirement patterns that matches yields the capture, which is stripped, has
trailing punctuation removed, source markers deleted, and is stripped again. -/
def extract_requirement_text (line : String) : Option String :=
  let ls := pyStrip line
  if pyLen ls < 10 then none
  else
    match reqPat1 ls.data <|> reqPat2 ls.data <|> reqPat3 ls.data <|> reqPat4 ls.data with
    | some cap =>
      some (pyStrip (strip_source_refs (rstripPunct (pyStrip ⟨cap⟩))))
    | none => none

/-- The JSON payload of a successful document fetch, holding the fields the
client reads (absent type/title fall back to defaults; absent date stays
absent; absent participants default to the empty list; absent content defaults
to the empty string). -/
structure DocPayload where
  ptype : Option String := none
  ptitle : Option String := none
  pdate : Option String := none
  pparticipants : List String := []
  pcontent : String := ""
deriving DecidableEq, Repr

/-- Outcome of one network retrieval: a decoded payload, an HTTP error (401,
404, ...), a transport error, or any other failure such as a malformed body. -/
inductive FetchOutcome
  | ok (payload : DocPayload)
  | httpErr (code : Nat)
  | netErr (reason : String)
  | otherErr (msg : String)
deriving DecidableEq

/-- The ambient behaviour of one pipeline run: the client configuration, the
network (a deterministic map from document identifier to outcome) and the
materialisation order of Python string sets — list(set(...)) applied to the
canonical deduplicated element list, which in CPython depends on the
per-process hash seed. -/
structure Env where
  enabled : Bool
  enableDeep : Bool
  baseUrl : String
  apiKey : String := ""
  oracle : String → FetchOutcome
  setOrder : List String → List String

/-- The client's identifier-keyed cache, an association list. -/
def cacheLookup (c : List (String × SourceDocument)) (k : String) :
    Option SourceDocument :=
  match c.find? (fun p => p.1 == k) with
  | some p => some p.2
  | none => none

/-- SourceDocumentAPI.fetch_document: absent when disabled; cache first; then
one authenticated request whose outcome the network oracle gives.  Every error
outcome yields absent.  Returns the result, the updated cache and the request
URLs issued. -/
def fetch_document (env : Env) (doc_id doc_type : String)
    (cache : List (String × SourceDocument)) :
    Option SourceDocument × List (String × SourceDocument) × List String :=
  if !env.enabled then (none, cache, [])
  else match cacheLookup cache doc_id with
    | some doc => (some doc, cache, [])
    | none =>
      let url := env.baseUrl ++ "/documents/" ++ doc_id
      match env.oracle doc_id with
      | .ok p =>
        let doc : SourceDocument :=
          { doc_id := doc_id
            doc_type := p.ptype.getD doc_type
            url := url
            title := p.ptitle.getD ("Document " ++ doc_id)
            date := p.pdate
            participants := p.pparticipants
            content := some p.pcontent
            fetched := true }
        (some doc, cache ++ [(doc_id, doc)], [url])
      | _ => (none, cache, [url])

/-- SourceDocumentAPI.fetch_multiple: sequential independent fetches keeping the
successes, in request order. -/
def fetch_multiple (env : Env) (ids : List String)
    (cache : List (String × SourceDocument)) :
    List SourceDocument × List (String × SourceDocument) × List String :=
  match ids with
  | [] => ([], cache, [])
  | i :: rest =>
    let f := fetch_document env i "unknown" cache
    let r := fetch_multiple env rest f.2.1
    match f.1 with
    | some doc => (doc :: r.1, r.2.1, f.2.2 ++ r.2.2)
    | none => (r.1, r.2.1, f.2.2 ++ r.2.2)

/-- Context snippet around the first occurrence of a keyword, as built inside
DeepAnalyzer.analyze_missing_requirement: the index is found in the lower-cased
body, the 150-character window is sliced from the original body, newlines become
spaces. -/
def keywordContext (content kw : String) : String :=
  let idx := pyFind (pyLower content) kw
  let start := (max 0 (idx - 50)).toNat
  let stop := (min (pyLen content : Int) (idx + 100)).toNat
  let context : String :=
    ⟨((content.data.drop start).take (stop - start)).map
      (fun c => if c == '\n' then ' ' else c)⟩
  "\x27" ++ kw ++ "\x27: ..." ++ context ++ "..."

/-- Per-document analysis lines of analyze_missing_requirement; documents with
empty or absent content contribute nothing. -/
def missingDocLines (env : Env) (req : Requirement) (doc : SourceDocument) :
    List String :=
  match doc.content with
  | none => []
  | some content =>
    if content == "" then []
    else
      let kws := (env.setOrder (keywordSet req.text)).take 5
      let lowerBody := pyLower content
      let ms := (kws.filter (fun kw => pyIn kw lowerBody)).map (keywordContext content)
      if !ms.isEmpty then
        ("  In " ++ doc.title ++ " (" ++ doc.doc_type ++ "):")
          :: (ms.take 2).map (fun m => "    - " ++ m)
      else ["  In " ++ doc.title ++ ": No direct mentions found"]

/-- DeepAnalyzer.analyze_missing_requirement. -/
def analyze_missing_requirement (env : Env) (req : Requirement)
    (cache : List (String × SourceDocument)) :
    (List SourceDocument × String) × List (String × SourceDocument) × List String :=
  if req.source_doc_refs.isEmpty then
    (([], "No source documents referenced for deeper analysis"), cache, [])
  else
    let f := fetch_multiple env req.source_doc_refs cache
    let docs := f.1
    if docs.isEmpty then (([], "Could not fetch source documents"), f.2.1, f.2.2)
    else
      let header := "Analyzed " ++ toString docs.length ++ " source document(s):"
      ((docs, String.intercalate "\n"
        (header :: (docs.map (missingDocLines env req)).flatten)), f.2.1, f.2.2)

/-- Per-document line of analyze_principle_violation; the first three principle
keywords, in set order, are searched in the lower-cased body. -/
def principleDocLine (env : Env) (pkeys : List String) (doc : SourceDocument) :
    List String :=
  match doc.content with
  | none => []
  | some content =>
    if content == "" then []
    else
      let lowerBody := pyLower content
      if ((env.setOrder pkeys).take 3).any (fun kw => pyIn kw lowerBody) then
        ["  " ++ doc.title ++ " mentions related concepts"]
      else ["  " ++ doc.title ++ " does not discuss this principle"]

/-- DeepAnalyzer.analyze_principle_violation (the spec item argument is unused,
as in the source). -/
def analyze_principle_violation (env : Env) (prin : Principle)
    (_spec : SpecificationItem) (related : List Requirement)
    (cache : List (String × SourceDocument)) :
    (List SourceDocument × String) × List (String × SourceDocument) × List String :=
  let ids := (related.map (fun r => r.source_doc_refs)).flatten
  if ids.isEmpty then (([], "No source documents available for analysis"), cache, [])
  else
    let f := fetch_multiple env (env.setOrder ids.dedup) cache
    let docs := f.1
    if docs.isEmpty then (([], "Could not fetch source documents"), f.2.1, f.2.2)
    else
      let pkeys := ((pyWords prin.text).filter (fun w => decide (pyLen w > 4))).dedup
      ((docs, String.intercalate "\n"
        ("Checking if source documents justify this violation:"
          :: (docs.map (principleDocLine env pkeys)).flatten)), f.2.1, f.2.2)

/-- DeepAnalyzer.analyze_ambiguity. -/
def analyze_ambiguity (env : Env) (spec : SpecificationItem)
    (reqs : List Requirement) (cache : List (String × SourceDocument)) :
    (List SourceDocument × String) × List (String × SourceDocument) × List String :=
  let specKeys := keywordSet spec.text
  let related := reqs.filter (fun r =>
    let reqWords := (pyWords r.text).dedup
    decide ((specKeys.filter (fun w => reqWords.contains w)).length ≥ 2))
  let ids := (related.map (fun r => r.source_doc_refs)).flatten
  if ids.isEmpty then
    (([], "No source documents to clarify this ambiguity"), cache, [])
  else
    let f := fetch_multiple env (env.setOrder ids.dedup) cache
    ((f.1, String.intercalate "\n"
      ("Searched source documents for clarification:"
        :: (f.1.map (fun d =>
          match d.content with
          | none => []
          | some content =>
            if content == "" then []
            else ["  " ++ d.title ++ " (" ++ d.doc_type ++ ") - " ++
              toString (pyLen content) ++ " chars analyzed"])).flatten)), f.2.1, f.2.2)

/-- The verifier's state: the three item collections, the violation
accumulator, the client's document cache and the log of issued requests. -/
structure St where
  requirements : List Requirement
  principles : List Principle
  specifications : List SpecificationItem
  violations : List Violation := []
  cache : List (String × SourceDocument) := []
  netLog : List String := []

/-- A fresh verifier state over loaded collections. -/
def St.init (reqs : List Requirement) (prins : List Principle)
    (specs : List SpecificationItem) : St :=
  { requirements := reqs, principles := prins, specifications := specs }

/-- Evidence line for a coverage violation. -/
def covEvidence (r : Requirement) : String :=
  r.id ++ " [" ++ r.source ++ "]: " ++ pyTake 100 r.text ++ "..."

/-- The aggregate CRITICAL violation for uncovered requirements. -/
def cov_uncovered_violation (unc : List Requirement) : Violation :=
  { severity := .CRITICAL
    category := "COVERAGE"
    title := toString unc.length ++ " requirements have NO coverage in specification"
    description := "The following requirements are completely missing from the specification:"
    evidence := (unc.take 5).map covEvidence
    related_requirements := unc.map (fun r => r.id) }

/-- The aggregate HIGH violation for partially covered requirements. -/
def cov_partly_violation (part : List Requirement) : Violation :=
  { severity := .HIGH
    category := "COVERAGE"
    title := toString part.length ++ " requirements have PARTIAL coverage"
    description := "These requirements are only partially addressed:"
    evidence := (part.take 5).map covEvidence }

/-- One step of the deep-analysis enrichment loop over the first three
uncovered requirements: documents are appended, the analysis text is set or
appended after a newline. -/
def covEnrichStep (env : Env)
    (acc : Violation × List (String × SourceDocument) × List String)
    (req : Requirement) : Violation × List (String × SourceDocument) × List String :=
  if req.source_doc_refs.isEmpty then acc
  else
    let r := analyze_missing_requirement env req acc.2.1
    let v1 := { acc.1 with source_documents := acc.1.source_documents ++ r.1.1 }
    let v2 :=
      if r.1.2 != "" then
        match v1.deep_analysis with
        | none => { v1 with deep_analysis := some r.1.2 }
        | some old => { v1 with deep_analysis := some (old ++ "\n" ++ r.1.2) }
      else v1
    (v2, r.2.1, acc.2.2 ++ r.2.2)

/-- The violations check_requirement_coverage appends (the possibly enriched
uncovered violation first, then the partial one) with the resulting cache and
request log. -/
def covResult (env : Env) (s : St) :
    List Violation × List (String × SourceDocument) × List String :=
  let unc := cov_uncovered s.requirements s.specifications
  let part := cov_partly s.requirements s.specifications
  let enriched :=
    if unc.isEmpty then ([], s.cache, s.netLog)
    else
      let v0 := cov_uncovered_violation unc
      if env.enableDeep then
        let r := (unc.take 3).foldl (covEnrichStep env) (v0, s.cache, s.netLog)
        ([r.1], r.2.1, r.2.2)
      else ([v0], s.cache, s.netLog)
  let partVs := if part.isEmpty then [] else [cov_partly_violation part]
  (enriched.1 ++ partVs, enriched.2.1, enriched.2.2)

/-- SpecificationVerifier.check_requirement_coverage. -/
def check_requirement_coverage (env : Env) (s : St) : St :=
  { s with
    violations := s.violations ++ (covResult env s).1,
    cache := (covResult env s).2.1,
    netLog := (covResult env s).2.2 }

/-- Evidence line for an orphaned specification item. -/
def orphanEvidence (sp : SpecificationItem) : String :=
  sp.id ++ " (line " ++ toString sp.line_number ++ "): " ++ pyTake 100 sp.text ++ "..."

/-- The aggregate HIGH scope-creep violation. -/
def orphan_violation (orphaned : List SpecificationItem) : Violation :=
  { severity := .HIGH
    category := "SCOPE_CREEP"
    title := toString orphaned.length ++ " specification items appear to be out of scope"
    description := "These specifications don\x27t clearly relate to any input requirements:"
    evidence := (orphaned.take 5).map orphanEvidence
    line_numbers := orphaned.map (fun sp => sp.line_number) }

/-- SpecificationVerifier.check_orphaned_specifications. -/
def check_orphaned_specifications (_env : Env) (s : St) : St :=
  let orphaned := orphaned_specs s.requirements s.specifications
  if orphaned.isEmpty then s
  else { s with violations := s.violations ++ [orphan_violation orphaned] }

/-- Prohibition phrases of check_principle_violations. -/
def prohibitionPhrases : List String := ["must not", "shall not", "cannot", "prohibited"]

/-- Obligation phrases of check_principle_violations. -/
def obligationPhrases : List String := ["must", "shall", "required"]

/-- The (principle, offending item, issue) triples collected by
check_principle_violations over the mandatory principles. -/
def principle_violations_found (prins : List Principle)
    (specs : List SpecificationItem) :
    List (Principle × Option SpecificationItem × String) :=
  prins.foldl (fun acc p =>
    if !p.mandatory then acc
    else
      let pl := pyLower p.text
      if prohibitionPhrases.any (fun ph => pyIn ph pl) then
        let terms := extract_key_terms p.text
        acc ++ (specs.map (fun sp =>
          (terms.filter (fun t => pyIn t (pyLower sp.text))).map
            (fun t => (p, some sp, t)))).flatten
      else if obligationPhrases.any (fun ph => pyIn ph pl) then
        let terms := extract_key_terms p.text
        if terms.any (fun t => pyIn t (specCorpus specs)) then acc
        else acc ++ [(p, none, "Not addressed")]
      else acc) []

/-- Evidence line for one principle violation instance. -/
def principleEvidence (e : Principle × Option SpecificationItem × String) : String :=
  match e with
  | (p, some sp, _) =>
    "Principle \x27" ++ pyTake 60 p.text ++ "...\x27 violated by spec at line " ++
      toString sp.line_number
  | (p, none, _) =>
    "Principle \x27" ++ pyTake 60 p.text ++ "...\x27 not addressed in specification"

/-- The aggregate CRITICAL principle violation. -/
def principle_violation_of
    (found : List (Principle × Option SpecificationItem × String)) : Violation :=
  { severity := .CRITICAL
    category := "PRINCIPLE_VIOLATION"
    title := toString found.length ++ " principle violations detected"
    description := "Mandatory principles have been violated or ignored:"
    evidence := (found.take 5).map principleEvidence }

/-- The violations check_principle_violations appends (one aggregate violation,
possibly enriched for the first instance) with the resulting cache and log. -/
def principleResult (env : Env) (s : St) :
    List Violation × List (String × SourceDocument) × List String :=
  let found := principle_violations_found s.principles s.specifications
  if found.isEmpty then ([], s.cache, s.netLog)
  else
    let v0 := principle_violation_of found
    let enriched :=
      if env.enableDeep then
        match found.head? with
        | some (p, some sp, _) =>
          let related := (s.requirements.filter (fun r =>
            r.tags.any (fun t => sp.tags.contains t))).take 3
          if related.any (fun r => !r.source_doc_refs.isEmpty) then
            let r := analyze_principle_violation env p sp related s.cache
            ({ v0 with source_documents := r.1.1, deep_analysis := some r.1.2 },
              r.2.1, s.netLog ++ r.2.2)
          else (v0, s.cache, s.netLog)
        | _ => (v0, s.cache, s.netLog)
      else (v0, s.cache, s.netLog)
    ([enriched.1], enriched.2.1, enriched.2.2)

/-- SpecificationVerifier.check_principle_violations. -/
def check_principle_violations (env : Env) (s : St) : St :=
  { s with
    violations := s.violations ++ (principleResult env s).1,
    cache := (principleResult env s).2.1,
    netLog := (principleResult env s).2.2 }

/-- The ambiguity vocabulary of check_ambiguity. -/
def ambiguousIndicators : List String :=
  ["appropriate", "reasonable", "adequate", "sufficient",
   "as needed", "if possible", "etc", "and so on",
   "various", "several", "some", "many", "few",
   "fast", "slow", "good", "bad", "efficient",
   "might", "may", "could", "possibly", "probably",
   "tbd", "todo", "to be determined", "to be decided"]

/-- The flagged items of check_ambiguity with their found indicators. -/
def ambiguous_specs_found (specs : List SpecificationItem) :
    List (SpecificationItem × List String) :=
  (specs.map (fun sp =>
    (sp, ambiguousIndicators.filter (fun ind => pyIn ind (pyLower sp.text))))).filter
    (fun e => !e.2.isEmpty)

/-- Evidence line for one ambiguous specification item. -/
def ambiguityEvidence (e : SpecificationItem × List String) : String :=
  "Line " ++ toString e.1.line_number ++ ": \x27" ++ pyTake 80 e.1.text ++
    "...\x27 (contains: " ++ String.intercalate ", " e.2 ++ ")"

/-- The aggregate MEDIUM ambiguity violation. -/
def ambiguity_violation_of (found : List (SpecificationItem × List String)) :
    Violation :=
  { severity := .MEDIUM
    category := "AMBIGUITY"
    title := toString found.length ++ " ambiguous specifications detected"
    description := "These specifications contain vague or ambiguous language:"
    evidence := (found.take 5).map ambiguityEvidence
    line_numbers := found.map (fun e => e.1.line_number) }

/-- The violations check_ambiguity appends (one aggregate violation, possibly
enriched for the first flagged item) with the resulting cache and log. -/
def ambiguityResult (env : Env) (s : St) :
    List Violation × List (String × SourceDocument) × List String :=
  let found := ambiguous_specs_found s.specifications
  if found.isEmpty then ([], s.cache, s.netLog)
  else
    let v0 := ambiguity_violation_of found
    let enriched :=
      if env.enableDeep then
        match found.head? with
        | some (sp, _) =>
          let r := analyze_ambiguity env sp s.requirements s.cache
          if !r.1.1.isEmpty then
            ({ v0 with source_documents := r.1.1, deep_analysis := some r.1.2 },
              r.2.1, s.netLog ++ r.2.2)
          else (v0, r.2.1, s.netLog ++ r.2.2)
        | none => (v0, s.cache, s.netLog)
      else (v0, s.cache, s.netLog)
    ([enriched.1], enriched.2.1, enriched.2.2)

/-- SpecificationVerifier.check_ambiguity. -/
def check_ambiguity (env : Env) (s : St) : St :=
  { s with
    violations := s.violations ++ (ambiguityResult env s).1,
    cache := (ambiguityResult env s).2.1,
    netLog := (ambiguityResult env s).2.2 }

/-- The ordered pairs (i, j) with i before j, as the nested iteration of
check_contradictions enumerates them. -/
def orderedPairs : List SpecificationItem →
    List (SpecificationItem × SpecificationItem)
  | [] => []
  | x :: xs => xs.map (fun y => (x, y)) ++ orderedPairs xs

/-- Evidence line for one contradiction pair. -/
def contradictionEvidence (e : SpecificationItem × SpecificationItem) : String :=
  "Line " ++ toString e.1.line_number ++ " vs Line " ++ toString e.2.line_number ++
    ": \x27" ++ pyTake 60 e.1.text ++ "...\x27 contradicts \x27" ++
    pyTake 60 e.2.text ++ "...\x27"

/-- The aggregate CRITICAL contradiction violation. -/
def contradiction_violation_of
    (cs : List (SpecificationItem × SpecificationItem)) : Violation :=
  { severity := .CRITICAL
    category := "CONTRADICTION"
    title := toString cs.length ++ " potential contradictions found"
    description := "These specification pairs may contradict each other:"
    evidence := (cs.take 3).map contradictionEvidence
    line_numbers := (cs.map (fun e => [e.1.line_number, e.2.line_number])).flatten }

/-- SpecificationVerifier.check_contradictions. -/
def check_contradictions (_env : Env) (s : St) : St :=
  let cs := (orderedPairs s.specifications).filter
    (fun e => are_contradictory e.1.text e.2.text)
  if cs.isEmpty then s
  else { s with violations := s.violations ++ [contradiction_violation_of cs] }

/-- The named aspects of check_completeness with their keyword groups, in the
source dictionary's insertion order. -/
def completenessAspects : List (String × List String) :=
  [("security", ["security", "authentication", "authorization", "encrypt"]),
   ("error_handling", ["error", "exception", "failure", "handle"]),
   ("performance", ["performance", "speed", "latency", "scale"]),
   ("validation", ["validate", "validation", "verify", "check"]),
   ("logging", ["log", "audit", "track", "monitor"])]

/-- Aspects the requirement corpus mentions but the specification corpus never
does. -/
def missing_aspects (reqs : List Requirement) (specs : List SpecificationItem) :
    List String :=
  (completenessAspects.filter (fun a =>
    !a.2.any (fun kw => pyIn kw (specCorpus specs)) &&
      a.2.any (fun kw => pyIn kw (reqCorpus reqs)))).map (fun a => a.1)

/-- SpecificationVerifier.check_completeness. -/
def check_completeness (_env : Env) (s : St) : St :=
  let missing := missing_aspects s.requirements s.specifications
  if missing.isEmpty then s
  else
    { s with violations := s.violations ++
      [{ severity := .HIGH
         category := "COMPLETENESS"
         title := "Missing " ++ toString missing.length ++ " important aspects"
         description := "Requirements mention these aspects, but specification doesn\x27t address them:"
         evidence := missing }] }

/-- SpecificationVerifier.check_scope_creep: a placeholder, no behaviour. -/
def check_scope_creep (_env : Env) (s : St) : St := s

/-- The obligation markers of check_vagueness. -/
def specificWords : List String := ["exactly", "specifically", "must", "shall", "will"]

/-- The vagueness test: more than ten words, no digit, no obligation marker. -/
def isVague (sp : SpecificationItem) : Bool :=
  let hasNumbers := sp.text.data.any Char.isDigit
  let hasSpecifics := specificWords.any (fun w => pyIn w (pyLower sp.text))
  !hasNumbers && !hasSpecifics && decide ((pySplitWs sp.text).length > 10)

/-- Evidence line with line number and the first 100 characters. -/
def lineTextEvidence (sp : SpecificationItem) : String :=
  "Line " ++ toString sp.line_number ++ ": " ++ pyTake 100 sp.text ++ "..."

/-- SpecificationVerifier.check_vagueness. -/
def check_vagueness (_env : Env) (s : St) : St :=
  let vague := s.specifications.filter isVague
  if vague.isEmpty then s
  else
    { s with violations := s.violations ++
      [{ severity := .MEDIUM
         category := "VAGUENESS"
         title := toString vague.length ++ " vague specifications"
         description := "These specifications lack concrete details or measurable criteria:"
         evidence := (vague.take 5).map lineTextEvidence
         line_numbers := vague.map (fun sp => sp.line_number) }] }

/-- Modal alternatives of the testability pattern (shall|must|will). -/
def testModals : List (List Char) := ["shall".data, "must".data, "will".data]

/-- Capability alternatives of the testability pattern (be|have|support|provide). -/
def testCaps : List (List Char) :=
  ["be".data, "have".data, "support".data, "provide".data]

/-- re.search of `(shall|must|will)\s+(be|have|support|provide)`, IGNORECASE. -/
def hasObligationCapability (l : List Char) : Bool :=
  (List.range l.length).any (fun i =>
    testModals.any (fun m =>
      chStartsCI m (l.drop i) &&
      (let r := (l.drop i).drop m.length
       decide (wsLen r ≥ 1) &&
         testCaps.any (fun cpb => chStartsCI cpb (r.drop (wsLen r))))))

/-- Observable-action verbs of the testability check. -/
def observableVerbs : List String := ["return", "output", "display", "store", "send"]

/-- Subjective words that make a specification untestable. -/
def untestableWords : List String :=
  ["appropriate", "adequate", "reasonable", "user-friendly",
   "intuitive", "easy", "simple", "good", "nice"]

/-- The untestability test of check_testability. -/
def isUntestable (sp : SpecificationItem) : Bool :=
  let lowerText := pyLower sp.text
  let testable := sp.text.data.any Char.isDigit
    || hasObligationCapability sp.text.data
    || observableVerbs.any (fun w => pyIn w lowerText)
  !testable || untestableWords.any (fun w => pyIn w lowerText)

/-- SpecificationVerifier.check_testability. -/
def check_testability (_env : Env) (s : St) : St :=
  let untestable := s.specifications.filter isUntestable
  if untestable.isEmpty then s
  else
    { s with violations := s.violations ++
      [{ severity := .MEDIUM
         category := "TESTABILITY"
         title := toString untestable.length ++ " specifications may not be testable"
         description := "These specifications lack concrete, measurable acceptance criteria:"
         evidence := (untestable.take 5).map lineTextEvidence
         line_numbers := untestable.map (fun sp => sp.line_number) }] }

/-- The synonym groups of check_consistency. -/
def terminologyGroups : List (List String) :=
  [["user", "customer", "client"],
   ["login", "sign in", "authenticate"],
   ["database", "data store", "repository"],
   ["api", "service", "endpoint"]]

/-- The terminology-drift findings of check_consistency. -/
def consistency_issues (specs : List SpecificationItem) : List String :=
  (terminologyGroups.map (fun g =>
    g.filter (fun t => pyIn t (specCorpus specs)))).filterMap
    (fun found => if found.length > 1 then
      some ("Inconsistent terminology: " ++ String.intercalate " vs " found) else none)

/-- SpecificationVerifier.check_consistency. -/
def check_consistency (_env : Env) (s : St) : St :=
  let issues := consistency_issues s.specifications
  if issues.isEmpty then s
  else
    { s with violations := s.violations ++
      [{ severity := .LOW
         category := "CONSISTENCY"
         title := toString issues.length ++ " consistency issues"
         description := "Found inconsistent terminology or formatting:"
         evidence := issues }] }

/-- SpecificationVerifier.verify: the fixed check battery, in source order. -/
def runVerify (env : Env) (s : St) : St :=
  check_consistency env (check_testability env (check_vagueness env
    (check_scope_creep env (check_completeness env (check_contradictions env
      (check_ambiguity env (check_principle_violations env
        (check_orphaned_specifications env (check_requirement_coverage env s)))))))))

/-- The total severity order used for sorting and for the verdict. -/
def severityRank : Severity → Nat
  | .CRITICAL => 0
  | .HIGH => 1
  | .MEDIUM => 2
  | .LOW => 3
  | .INFO => 4

/-- The detailed-violations ordering of generate_report: Python's stable sort
by severity rank. -/
def sorted_violations (vs : List Violation) : List Violation :=
  vs.mergeSort (fun a b => decide (severityRank a.severity ≤ severityRank b.severity))

/-- The severity histogram of generate_report. -/
def severityCount (vs : List Violation) (sev : Severity) : Nat :=
  (vs.filter (fun v => v.severity == sev)).length

/-- The verdict line computed at the end of generate_report (identical in both
source files). -/
def verdictLine (vs : List Violation) : String :=
  let critical := severityCount vs .CRITICAL
  let high := severityCount vs .HIGH
  if critical > 0 then
    "❌ FAILED - " ++ toString critical ++ " CRITICAL issues must be resolved"
  else if high > 5 then
    "⚠️  CONDITIONAL FAIL - " ++ toString high ++ " HIGH severity issues need attention"
  else if high > 0 then
    "⚠️  PASS WITH CONCERNS - " ++ toString high ++ " HIGH severity issues present"
  else "✅ PASSED - Minor issues only"

/-- The api_config enabled flag computed by main(): deep analysis requested and
a base URL configured. -/
def cliEnabled (deepFlag : Bool) (baseUrl : Option String) : Bool :=
  deepFlag && baseUrl.isSome

/-- The run environment induced by the command line: the verifier couples
enable_deep_analysis with the client's enabled flag. -/
def envOfCli (deepFlag : Bool) (baseUrl : Option String) (key : String)
    (oracle : String → FetchOutcome) (setOrder : List String → List String) : Env :=
  { enabled := cliEnabled deepFlag baseUrl
    enableDeep := deepFlag && cliEnabled deepFlag baseUrl
    baseUrl := baseUrl.getD ""
    apiKey := key
    oracle := oracle
    setOrder := setOrder }

namespace Basic

/-- A violation of the basic verifier (`spec_verifier.py`), which carries no
related requirements, source documents or deep analysis. -/
structure BViolation where
  severity : Severity
  category : String
  title : String
  description : String
  evidence : List String := []
  line_numbers : List Nat := []
deriving DecidableEq, Repr

/-- The basic verifier's state; its checks read the same extracted collections
(the basic Requirement simply lacks the source_doc_refs field, which its checks
never read). -/
structure St where
  requirements : List Requirement
  principles : List Principle
  specifications : List SpecificationItem
  violations : List BViolation := []

/-- A fresh basic-verifier state over loaded collections. -/
def St.init (reqs : List Requirement) (prins : List Principle)
    (specs : List SpecificationItem) : St :=
  { requirements := reqs, principles := prins, specifications := specs }

/-- Basic check_requirement_coverage: same classification, no deep analysis and
no related-requirements field. -/
def check_requirement_coverage (s : St) : St :=
  let unc := cov_uncovered s.requirements s.specifications
  let part := cov_partly s.requirements s.specifications
  let uncVs : List BViolation :=
    if unc.isEmpty then []
    else
      [{ severity := .CRITICAL
         category := "COVERAGE"
         title := toString unc.length ++ " requirements have NO coverage in specification"
         description := "The following requirements are completely missing from the specification:"
         evidence := (unc.take 5).map covEvidence }]
  let partVs : List BViolation :=
    if part.isEmpty then []
    else
      [{ severity := .HIGH
         category := "COVERAGE"
         title := toString part.length ++ " requirements have PARTIAL coverage"
         description := "These requirements are only partially addressed:"
         evidence := (part.take 5).map covEvidence }]
  { s with violations := s.violations ++ uncVs ++ partVs }

/-- Basic check_orphaned_specifications. -/
def check_orphaned_specifications (s : St) : St :=
  let orphaned := orphaned_specs s.requirements s.specifications
  if orphaned.isEmpty then s
  else
    { s with violations := s.violations ++
      [{ severity := .HIGH
         category := "SCOPE_CREEP"
         title := toString orphaned.length ++ " specification items appear to be out of scope"
         description := "These specifications don\x27t clearly relate to any input requirements:"
         evidence := (orphaned.take 5).map orphanEvidence
         line_numbers := orphaned.map (fun sp => sp.line_number) }] }

/-- Basic check_principle_violations: same collection of instances. -/
def check_principle_violations (s : St) : St :=
  let found := principle_violations_found s.principles s.specifications
  if found.isEmpty then s
  else
    { s with violations := s.violations ++
      [{ severity := .CRITICAL
         category := "PRINCIPLE_VIOLATION"
         title := toString found.length ++ " principle violations detected"
         description := "Mandatory principles have been violated or ignored:"
         evidence := (found.take 5).map principleEvidence }] }

/-- Basic check_ambiguity. -/
def check_ambiguity (s : St) : St :=
  let found := ambiguous_specs_found s.specifications
  if found.isEmpty then s
  else
    { s with violations := s.violations ++
      [{ severity := .MEDIUM
         category := "AMBIGUITY"
         title := toString found.length ++ " ambiguous specifications detected"
         description := "These specifications contain vague or ambiguous language:"
         evidence := (found.take 5).map ambiguityEvidence
         line_numbers := found.map (fun e => e.1.line_number) }] }

/-- Basic check_contradictions. -/
def check_contradictions (s : St) : St :=
  let cs := (orderedPairs s.specifications).filter
    (fun e => are_contradictory e.1.text e.2.text)
  if cs.isEmpty then s
  else
    { s with violations := s.violations ++
      [{ severity := .CRITICAL
         category := "CONTRADICTION"
         title := toString cs.length ++ " potential contradictions found"
         description := "These specification pairs may contradict each other:"
         evidence := (cs.take 3).map contradictionEvidence
         line_numbers := (cs.map (fun e => [e.1.line_number, e.2.line_number])).flatten }] }

/-- Basic check_completeness. -/
def check_completeness (s : St) : St :=
  let missing := missing_aspects s.requirements s.specifications
  if missing.isEmpty then s
  else
    { s with violations := s.violations ++
      [{ severity := .HIGH
         category := "COMPLETENESS"
         title := "Missing " ++ toString missing.length ++ " important aspects"
         description := "Requirements mention these aspects, but specification doesn\x27t address them:"
         evidence := missing }] }

/-- Basic check_scope_creep: a placeholder, no behaviour. -/
def check_scope_creep (s : St) : St := s

/-- Basic check_vagueness. -/
def check_vagueness (s : St) : St :=
  let vague := s.specifications.filter isVague
  if vague.isEmpty then s
  else
    { s with violations := s.violations ++
      [{ severity := .MEDIUM
         category := "VAGUENESS"
         title := toString vague.length ++ " vague specifications"
         description := "These specifications lack concrete details or measurable criteria:"
         evidence := (vague.take 5).map lineTextEvidence
         line_numbers := vague.map (fun sp => sp.line_number) }] }

/-- Basic check_testability. -/
def check_testability (s : St) : St :=
  let untestable := s.specifications.filter isUntestable
  if untestable.isEmpty then s
  else
    { s with violations := s.violations ++
      [{ severity := .MEDIUM
         category := "TESTABILITY"
         title := toString untestable.length ++ " specifications may not be testable"
         description := "These specifications lack concrete, measurable acceptance criteria:"
         evidence := (untestable.take 5).map lineTextEvidence
         line_numbers := untestable.map (fun sp => sp.line_number) }] }

/-- Basic check_consistency. -/
def check_consistency (s : St) : St :=
  let issues := consistency_issues s.specifications
  if issues.isEmpty then s
  else
    { s with violations := s.violations ++
      [{ severity := .LOW
         category := "CONSISTENCY"
         title := toString issues.length ++ " consistency issues"
         description := "Found inconsistent terminology or formatting:"
         evidence := issues }] }

/-- The basic verifier's verify: the same fixed battery. -/
def runVerify (s : St) : St :=
  check_consistency (check_testability (check_vagueness (check_scope_creep
    (check_completeness (check_contradictions (check_ambiguity
      (check_principle_violations (check_orphaned_specifications
        (check_requirement_coverage s)))))))))

/-- The basic verifier's severity histogram. -/
def severityCount (vs : List BViolation) (sev : Severity) : Nat :=
  (vs.filter (fun v => v.severity == sev)).length

/-- The basic verifier's verdict line (textually identical to the enhanced
one). -/
def verdictLine (vs : List BViolation) : String :=
  let critical := severityCount vs .CRITICAL
  let high := severityCount vs .HIGH
  if critical > 0 then
    "❌ FAILED - " ++ toString critical ++ " CRITICAL issues must be resolved"
  else if high > 5 then
    "⚠️  CONDITIONAL FAIL - " ++ toString high ++ " HIGH severity issues need attention"
  else if high > 0 then
    "⚠️  PASS WITH CONCERNS - " ++ toString high ++ " HIGH severity issues present"
  else "✅ PASSED - Minor issues only"

end Basic

/-- The violation fields shared by both verifiers, for stating their
equivalence. -/
structure ViolationCore where
  severity : Severity
  category : String
  title : String
  description : String
  evidence : List String
  line_numbers : List Nat
deriving DecidableEq, Repr

/-- Projection of an enhanced violation to the shared fields. -/
def Violation.core (v : Violation) : ViolationCore :=
  ⟨v.severity, v.category, v.title, v.description, v.evidence, v.line_numbers⟩

/-- Projection of a basic violation to the shared fields. -/
def Basic.BViolation.core (v : Basic.BViolation) : ViolationCore :=
  ⟨v.severity, v.category, v.title, v.description, v.evidence, v.line_numbers⟩

/-- An inert run environment: client disabled, no deep analysis, a network that
always fails, identity set order. -/
def inertEnv : Env :=
  { enabled := false
    enableDeep := false
    baseUrl := ""
    oracle := fun _ => .otherErr "unused"
    setOrder := fun l => l }

/-- Appending a batch of violations to a state, leaving everything else as is. -/
def appendViolations (s : St) (l : List Violation) : St :=
  { s with violations := s.violations ++ l }

/-- The violations check_requirement_coverage appends when deep analysis is off. -/
def covNew (s : St) : List Violation :=
  (if (cov_uncovered s.requirements s.specifications).isEmpty then []
   else [cov_uncovered_violation (cov_uncovered s.requirements s.specifications)]) ++
  (if (cov_partly s.requirements s.specifications).isEmpty then []
   else [cov_partly_violation (cov_partly s.requirements s.specifications)])

/-- The violations check_orphaned_specifications appends. -/
def orphanNew (s : St) : List Violation :=
  if (orphaned_specs s.requirements s.specifications).isEmpty then []
  else [orphan_violation (orphaned_specs s.requirements s.specifications)]

/-- The violations check_principle_violations appends when deep analysis is off. -/
def principleNew (s : St) : List Violation :=
  if (principle_violations_found s.principles s.specifications).isEmpty then []
  else [principle_violation_of (principle_violations_found s.principles s.specifications)]

/-- The violations check_ambiguity appends when deep analysis is off. -/
def ambiguityNew (s : St) : List Violation :=
  if (ambiguous_specs_found s.specifications).isEmpty then []
  else [ambiguity_violation_of (ambiguous_specs_found s.specifications)]

/-- The violations check_contradictions appends. -/
def contradictionNew (s : St) : List Violation :=
  if ((orderedPairs s.specifications).filter
      (fun e => are_contradictory e.1.text e.2.text)).isEmpty then []
  else [contradiction_violation_of ((orderedPairs s.specifications).filter
    (fun e => are_contradictory e.1.text e.2.text))]

/-- The violation check_completeness appends. -/
def completenessNew (s : St) : List Violation :=
  if (missing_aspects s.requirements s.specifications).isEmpty then []
  else
    [{ severity := .HIGH
       category := "COMPLETENESS"
       title := "Missing " ++ toString (missing_aspects s.requirements s.specifications).length ++
         " important aspects"
       description := "Requirements mention these aspects, but specification doesn\x27t address them:"
       evidence := missing_aspects s.requirements s.specifications }]

/-- The violation check_vagueness appends. -/
def vaguenessNew (s : St) : List Violation :=
  if (s.specifications.filter isVague).isEmpty then []
  else
    [{ severity := .MEDIUM
       category := "VAGUENESS"
       title := toString (s.specifications.filter isVague).length ++ " vague specifications"
       description := "These specifications lack concrete details or measurable criteria:"
       evidence := ((s.specifications.filter isVague).take 5).map lineTextEvidence
       line_numbers := (s.specifications.filter isVague).map (fun sp => sp.line_number) }]

/-- The violation check_testability appends. -/
def testabilityNew (s : St) : List Violation :=
  if (s.specifications.filter isUntestable).isEmpty then []
  else
    [{ severity := .MEDIUM
       category := "TESTABILITY"
       title := toString (s.specifications.filter isUntestable).length ++
         " specifications may not be testable"
       description := "These specifications lack concrete, measurable acceptance criteria:"
       evidence := ((s.specifications.filter isUntestable).take 5).map lineTextEvidence
       line_numbers := (s.specifications.filter isUntestable).map (fun sp => sp.line_number) }]

/-- The violation check_consistency appends. -/
def consistencyNew (s : St) : List Violation :=
  if (consistency_issues s.specifications).isEmpty then []
  else
    [{ severity := .LOW
       category := "CONSISTENCY"
       title := toString (consistency_issues s.specifications).length ++ " consistency issues"
       description := "Found inconsistent terminology or formatting:"
       evidence := consistency_issues s.specifications }]

/-- All violations the battery appends, in check order, when deep analysis is
off.  Every constituent is a pure function of the three collections. -/
def batteryNew (s : St) : List Violation :=
  covNew s ++ orphanNew s ++ principleNew s ++ ambiguityNew s ++ contradictionNew s ++
    completenessNew s ++ vaguenessNew s ++ testabilityNew s ++ consistencyNew s

/-- A violation untouched by deep analysis: no source documents attached and no
deep-analysis text. -/
def cleanViolation (v : Violation) : Prop :=
  v.source_documents = [] ∧ v.deep_analysis = none

theorem appendViolations_append (s : St) (a b : List Violation) :
    appendViolations (appendViolations s a) b = appendViolations s (a ++ b) := by
  simp [appendViolations]

theorem check_requirement_coverage_disabled (env : Env) (h : env.enableDeep = false)
    (s : St) : check_requirement_coverage env s = appendViolations s (covNew s) := by
  by_cases h1 : (cov_uncovered s.requirements s.specifications).isEmpty <;>
  by_cases h2 : (cov_partly s.requirements s.specifications).isEmpty <;>
    simp [check_requirement_coverage, covResult, covNew, appendViolations, h, h1, h2]

theorem check_orphaned_specifications_shape (env : Env) (s : St) :
    check_orphaned_specifications env s = appendViolations s (orphanNew s) := by
  by_cases h1 : (orphaned_specs s.requirements s.specifications).isEmpty <;>
    simp [check_orphaned_specifications, orphanNew, appendViolations, h1]

theorem check_principle_violations_disabled (env : Env) (h : env.enableDeep = false)
    (s : St) : check_principle_violations env s = appendViolations s (principleNew s) := by
  by_cases h1 : (principle_violations_found s.principles s.specifications).isEmpty <;>
    simp [check_principle_violations, principleResult, principleNew, appendViolations, h, h1]

theorem check_ambiguity_disabled (env : Env) (h : env.enableDeep = false)
    (s : St) : check_ambiguity env s = appendViolations s (ambiguityNew s) := by
  by_cases h1 : (ambiguous_specs_found s.specifications).isEmpty <;>
    simp [check_ambiguity, ambiguityResult, ambiguityNew, appendViolations, h, h1]

theorem check_contradictions_shape (env : Env) (s : St) :
    check_contradictions env s = appendViolations s (contradictionNew s) := by
  by_cases h1 : ((orderedPairs s.specifications).filter
      (fun e => are_contradictory e.1.text e.2.text)).isEmpty <;>
    simp [check_contradictions, contradictionNew, appendViolations, h1]

theorem check_completeness_shape (env : Env) (s : St) :
    check_completeness env s = appendViolations s (completenessNew s) := by
  by_cases h1 : (missing_aspects s.requirements s.specifications).isEmpty <;>
    simp [check_completeness, completenessNew, appendViolations, h1]

theorem check_scope_creep_shape (env : Env) (s : St) :
    check_scope_creep env s = appendViolations s [] := by
  simp [check_scope_creep, appendViolations]

theorem check_vagueness_shape (env : Env) (s : St) :
    check_vagueness env s = appendViolations s (vaguenessNew s) := by
  by_cases h1 : (s.specifications.filter isVague).isEmpty <;>
    simp [check_vagueness, vaguenessNew, appendViolations, h1]

theorem check_testability_shape (env : Env) (s : St) :
    check_testability env s = appendViolations s (testabilityNew s) := by
  by_cases h1 : (s.specifications.filter isUntestable).isEmpty <;>
    simp [check_testability, testabilityNew, appendViolations, h1]

theorem check_consistency_shape (env : Env) (s : St) :
    check_consistency env s = appendViolations s (consistencyNew s) := by
  by_cases h1 : (consistency_issues s.specifications).isEmpty <;>
    simp [check_consistency, consistencyNew, appendViolations, h1]

theorem covNew_append (s : St) (l : List Violation) :
    covNew (appendViolations s l) = covNew s := rfl

theorem orphanNew_append (s : St) (l : List Violation) :
    orphanNew (appendViolations s l) = orphanNew s := rfl

theorem principleNew_append (s : St) (l : List Violation) :
    principleNew (appendViolations s l) = principleNew s := rfl

theorem ambiguityNew_append (s : St) (l : List Violation) :
    ambiguityNew (appendViolations s l) = ambiguityNew s := rfl

theorem contradictionNew_append (s : St) (l : List Violation) :
    contradictionNew (appendViolations s l) = contradictionNew s := rfl

theorem completenessNew_append (s : St) (l : List Violation) :
    completenessNew (appendViolations s l) = completenessNew s := rfl

theorem vaguenessNew_append (s : St) (l : List Violation) :
    vaguenessNew (appendViolations s l) = vaguenessNew s := rfl

theorem testabilityNew_append (s : St) (l : List Violation) :
    testabilityNew (appendViolations s l) = testabilityNew s := rfl

theorem consistencyNew_append (s : St) (l : List Violation) :
    consistencyNew (appendViolations s l) = consistencyNew s := rfl

/-- With deep analysis off, the whole battery appends exactly batteryNew. -/
theorem runVerify_disabled (env : Env) (h : env.enableDeep = false) (s : St) :
    runVerify env s = appendViolations s (batteryNew s) := by
  unfold runVerify
  rw [check_requirement_coverage_disabled env h,
    check_orphaned_specifications_shape, orphanNew_append, appendViolations_append,
    check_principle_violations_disabled env h, principleNew_append, appendViolations_append,
    check_ambiguity_disabled env h, ambiguityNew_append, appendViolations_append,
    check_contradictions_shape, contradictionNew_append, appendViolations_append,
    check_completeness_shape, completenessNew_append, appendViolations_append,
    check_scope_creep_shape, appendViolations_append,
    check_vagueness_shape, vaguenessNew_append, appendViolations_append,
    check_testability_shape, testabilityNew_append, appendViolations_append,
    check_consistency_shape, consistencyNew_append, appendViolations_append]
  simp [batteryNew, List.append_assoc]

/-- An uncovered requirement carrying one source document reference, for
exercising the deep-analysis path. -/
def c8Req : Requirement :=
  { id := "REQ_c8", text := "alpha beta", source := "HUMAN_INPUT:notes.txt",
    line_number := 1, source_doc_refs := ["d1"] }

/-- A network where exactly document d1 exists, with a fixed body. -/
def c8Oracle : String → FetchOutcome := fun doc_id =>
  if doc_id == "d1" then
    .ok { ptype := some "email", ptitle := some "Thread", pcontent := "alpha beta" }
  else .httpErr 404

/-- A deep-analysis-enabled environment over that network, parameterised by the
set iteration order of the process. -/
def c8Env (σ : List String → List String) : Env :=
  { enabled := true, enableDeep := true, baseUrl := "https://api.example.com",
    oracle := c8Oracle, setOrder := σ }

/-- The loaded collections of the counterexample run. -/
def c8State : St := St.init [c8Req] [] []

/-- C8 — counterexample: on the same loaded collections and the same network
responses, two runs of the pipeline that differ only in the process's set
iteration order (both orders are permutations, as list(set(...)) yields under
different hash seeds) produce different Violation lists: the deep_analysis text
lists the keyword contexts in different orders.  The claimed run-to-run
determinism therefore fails once deep analysis is enabled. -/
theorem claim_C8_deep_determinism_cex :
    (runVerify (c8Env (fun l => l)) c8State).violations.map (fun v => v.deep_analysis)
      ≠ (runVerify (c8Env (fun l => l.reverse)) c8State).violations.map
          (fun v => v.deep_analysis) := by
  decide

/-- C8 — amended: with deep analysis disabled the pipeline is a pure function
of the extracted collections: two runs agree on the full final state (hence on
the Violation list, all evidence strings, and the verdict) whatever the network
oracle, client configuration and set iteration order of each run. -/
theorem claim_C8_disabled_determinism (s : St) (e₁ e₂ : Bool) (b₁ b₂ k₁ k₂ : String)
    (o₁ o₂ : String → FetchOutcome) (σ₁ σ₂ : List String → List String) :
    runVerify ⟨e₁, false, b₁, k₁, o₁, σ₁⟩ s = runVerify ⟨e₂, false, b₂, k₂, o₂, σ₂⟩ s
    ∧ verdictLine (runVerify ⟨e₁, false, b₁, k₁, o₁, σ₁⟩ s).violations
      = verdictLine (runVerify ⟨e₂, false, b₂, k₂, o₂, σ₂⟩ s).violations := by
  constructor
  · rw [runVerify_disabled _ rfl, runVerify_disabled _ rfl]
  · rw [runVerify_disabled _ rfl, runVerify_disabled _ rfl]

/-- A check touches the shared state only by appending violations: the three
item collections are unchanged and the accumulator grows by a suffix. -/
def framePreserving (check : Env → St → St) : Prop :=
  ∀ (env : Env) (s : St),
    (check env s).requirements = s.requirements
    ∧ (check env s).principles = s.principles
    ∧ (check env s).specifications = s.specifications
    ∧ ∃ new : List Violation, (check env s).violations = s.violations ++ new

theorem frame_of_appendViolations {check : Env → St → St}
    (h : ∀ env s, ∃ l, check env s = appendViolations s l) :
    framePreserving check := by
  intro env s
  obtain ⟨l, hl⟩ := h env s
  rw [hl]
  exact ⟨rfl, rfl, rfl, l, rfl⟩


theorem check_requirement_coverage_frame : framePreserving check_requirement_coverage :=
  fun env s => ⟨rfl, rfl, rfl, (covResult env s).1, rfl⟩

theorem check_orphaned_specifications_frame :
    framePreserving check_orphaned_specifications :=
  frame_of_appendViolations (fun env s => ⟨_, check_orphaned_specifications_shape env s⟩)

theorem check_principle_violations_frame : framePreserving check_principle_violations :=
  fun env s => ⟨rfl, rfl, rfl, (principleResult env s).1, rfl⟩

theorem check_ambiguity_frame : framePreserving check_ambiguity :=
  fun env s => ⟨rfl, rfl, rfl, (ambiguityResult env s).1, rfl⟩

theorem check_contradictions_frame : framePreserving check_contradictions :=
  frame_of_appendViolations (fun env s => ⟨_, check_contradictions_shape env s⟩)

theorem check_completeness_frame : framePreserving check_completeness :=
  frame_of_appendViolations (fun env s => ⟨_, check_completeness_shape env s⟩)

theorem check_scope_creep_frame : framePreserving check_scope_creep :=
  frame_of_appendViolations (fun env s => ⟨[], check_scope_creep_shape env s⟩)

theorem check_vagueness_frame : framePreserving check_vagueness :=
  frame_of_appendViolations (fun env s => ⟨_, check_vagueness_shape env s⟩)

theorem check_testability_frame : framePreserving check_testability :=
  frame_of_appendViolations (fun env s => ⟨_, check_testability_shape env s⟩)

theorem check_consistency_frame : framePreserving check_consistency :=
  frame_of_appendViolations (fun env s => ⟨_, check_consistency_shape env s⟩)

theorem framePreserving_comp {f g : Env → St → St} (hf : framePreserving f)
    (hg : framePreserving g) : framePreserving (fun env s => g env (f env s)) := by
  intro env s
  obtain ⟨h1, h2, h3, n1, h4⟩ := hf env s
  obtain ⟨g1, g2, g3, n2, g4⟩ := hg env (f env s)
  refine ⟨g1.trans h1, g2.trans h2, g3.trans h3, n1 ++ n2, ?_⟩
  rw [g4, h4, List.append_assoc]

theorem runVerify_frame : framePreserving runVerify := by
  intro env s
  have h := (framePreserving_comp check_requirement_coverage_frame
    (framePreserving_comp check_orphaned_specifications_frame
      (framePreserving_comp check_principle_violations_frame
        (framePreserving_comp check_ambiguity_frame
          (framePreserving_comp check_contradictions_frame
            (framePreserving_comp check_completeness_frame
              (framePreserving_comp check_scope_creep_frame
                (framePreserving_comp check_vagueness_frame
                  (framePreserving_comp check_testability_frame
                    check_consistency_frame))))))))) env s
  exact h

/-- C9: every check of the fixed battery, and the composed battery itself,
leaves the requirements, principles and specifications collections unchanged
and modifies the shared accumulator only by appending new Violations; in
particular the violations already accumulated before a check runs form an
unchanged prefix afterwards. -/
theorem claim_C9_check_frame :
    framePreserving check_requirement_coverage
    ∧ framePreserving check_orphaned_specifications
    ∧ framePreserving check_principle_violations
    ∧ framePreserving check_ambiguity
    ∧ framePreserving check_contradictions
    ∧ framePreserving check_completeness
    ∧ framePreserving check_scope_creep
    ∧ framePreserving check_vagueness
    ∧ framePreserving check_testability
    ∧ framePreserving check_consistency
    ∧ framePreserving runVerify
    ∧ ∀ (env : Env) (s : St),
        (runVerify env s).violations.take s.violations.length = s.violations := by
  refine ⟨check_requirement_coverage_frame, check_orphaned_specifications_frame,
    check_principle_violations_frame, check_ambiguity_frame, check_contradictions_frame,
    check_completeness_frame, check_scope_creep_frame, check_vagueness_frame,
    check_testability_frame, check_consistency_frame, runVerify_frame, ?_⟩
  intro env s
  obtain ⟨-, -, -, new, h⟩ := runVerify_frame env s
  rw [h, List.take_left]

theorem mem_ite_nil_singleton {α : Type} {c : Prop} [Decidable c] {x v : α}
    (h : v ∈ (if c then ([] : List α) else [x])) : v = x := by
  split at h
  · cases h
  · simpa using h

theorem covNew_clean (s : St) : ∀ v ∈ covNew s, cleanViolation v := by
  intro v hv
  rcases List.mem_append.1 hv with h | h <;>
    (rw [mem_ite_nil_singleton h]; exact ⟨rfl, rfl⟩)

theorem orphanNew_clean (s : St) : ∀ v ∈ orphanNew s, cleanViolation v := by
  intro v hv
  rw [mem_ite_nil_singleton hv]
  exact ⟨rfl, rfl⟩

theorem principleNew_clean (s : St) : ∀ v ∈ principleNew s, cleanViolation v := by
  intro v hv
  rw [mem_ite_nil_singleton hv]
  exact ⟨rfl, rfl⟩

theorem ambiguityNew_clean (s : St) : ∀ v ∈ ambiguityNew s, cleanViolation v := by
  intro v hv
  rw [mem_ite_nil_singleton hv]
  exact ⟨rfl, rfl⟩

theorem contradictionNew_clean (s : St) : ∀ v ∈ contradictionNew s, cleanViolation v := by
  intro v hv
  rw [mem_ite_nil_singleton hv]
  exact ⟨rfl, rfl⟩

theorem completenessNew_clean (s : St) : ∀ v ∈ completenessNew s, cleanViolation v := by
  intro v hv
  rw [mem_ite_nil_singleton hv]
  exact ⟨rfl, rfl⟩

theorem vaguenessNew_clean (s : St) : ∀ v ∈ vaguenessNew s, cleanViolation v := by
  intro v hv
  rw [mem_ite_nil_singleton hv]
  exact ⟨rfl, rfl⟩

theorem testabilityNew_clean (s : St) : ∀ v ∈ testabilityNew s, cleanViolation v := by
  intro v hv
  rw [mem_ite_nil_singleton hv]
  exact ⟨rfl, rfl⟩

theorem consistencyNew_clean (s : St) : ∀ v ∈ consistencyNew s, cleanViolation v := by
  intro v hv
  rw [mem_ite_nil_singleton hv]
  exact ⟨rfl, rfl⟩

theorem batteryNew_clean (s : St) : ∀ v ∈ batteryNew s, cleanViolation v := by
  intro v hv
  simp only [batteryNew, List.mem_append] at hv
  rcases hv with ((((((((hv | hv) | hv) | hv) | hv) | hv) | hv) | hv) | hv)
  · exact covNew_clean s v hv
  · exact orphanNew_clean s v hv
  · exact principleNew_clean s v hv
  · exact ambiguityNew_clean s v hv
  · exact contradictionNew_clean s v hv
  · exact completenessNew_clean s v hv
  · exact vaguenessNew_clean s v hv
  · exact testabilityNew_clean s v hv
  · exact consistencyNew_clean s v hv

/-- C6: with no base URL configured the client is disabled: fetch_document
always returns absent, issues no request and leaves the cache unchanged; and a
full verification run issues no request and every produced Violation has an
empty source_documents list and no deep_analysis. -/
theorem claim_C6_disabled_client :
    (∀ (d : Bool) (k doc_id doc_type : String) (o : String → FetchOutcome)
       (σ : List String → List String) (cache : List (String × SourceDocument)),
      fetch_document (envOfCli d none k o σ) doc_id doc_type cache = (none, cache, []))
    ∧ (∀ (d : Bool) (k : String) (o : String → FetchOutcome)
       (σ : List String → List String) (reqs : List Requirement)
       (prins : List Principle) (specs : List SpecificationItem),
      (runVerify (envOfCli d none k o σ) (St.init reqs prins specs)).netLog = []
      ∧ ∀ v ∈ (runVerify (envOfCli d none k o σ) (St.init reqs prins specs)).violations,
          cleanViolation v) := by
  constructor
  · intro d k doc_id doc_type o σ cache
    simp [fetch_document, envOfCli, cliEnabled]
  · intro d k o σ reqs prins specs
    have hd : (envOfCli d none k o σ).enableDeep = false := by
      simp [envOfCli, cliEnabled]
    rw [runVerify_disabled _ hd]
    constructor
    · rfl
    · intro v hv
      have : v ∈ batteryNew (St.init reqs prins specs) := by
        simpa [appendViolations, St.init] using hv
      exact batteryNew_clean _ v this

/-- A specification item unrelated to any requirement, to exercise a run that
produces violations. -/
def c6Item : SpecificationItem :=
  { id := "SPEC_c6", text := "Render a colourful greeting banner near the top of the page",
    line_number := 4 }

/-- A deep-analysis request with no base URL configured. -/
def c6Env : Env := envOfCli true none "key" (fun _ => .httpErr 404) (fun l => l)

theorem claim_C6_disabled_client_witness :
    fetch_document c6Env "doc-9" "unknown" [] = (none, [], [])
    ∧ (runVerify c6Env (St.init [] [] [c6Item])).netLog = []
    ∧ cleanViolation (orphan_violation [c6Item]) :=
  ⟨claim_C6_disabled_client.1 true "key" "doc-9" "unknown" (fun _ => .httpErr 404)
      (fun l => l) [],
    (claim_C6_disabled_client.2 true "key" (fun _ => .httpErr 404) (fun l => l)
      [] [] [c6Item]).1,
    (claim_C6_disabled_client.2 true "key" (fun _ => .httpErr 404) (fun l => l)
      [] [] [c6Item]).2 (orphan_violation [c6Item]) (by decide)⟩

/-- Whether the network yields a decoded document for an identifier. -/
def oracleOk (env : Env) (doc_id : String) : Bool :=
  match env.oracle doc_id with
  | .ok _ => true
  | _ => false

/-- A cache every entry of which was produced by a successful fetch: it is
keyed by the document's identifier and the network succeeds for it. -/
def cacheSound (env : Env) (c : List (String × SourceDocument)) : Prop :=
  ∀ p ∈ c, p.2.doc_id = p.1 ∧ oracleOk env p.1 = true

theorem cacheSound_nil (env : Env) : cacheSound env [] := by
  intro p hp
  cases hp


theorem cacheLookup_sound {env : Env} {c : List (String × SourceDocument)}
    (hc : cacheSound env c) {k : String} {d : SourceDocument}
    (h : cacheLookup c k = some d) : d.doc_id = k ∧ oracleOk env k = true := by
  unfold cacheLookup at h
  cases hfind : c.find? (fun p => p.1 == k) with
  | none => rw [hfind] at h; cases h
  | some p =>
    rw [hfind] at h
    cases h
    have hmem := List.mem_of_find?_eq_some hfind
    have hkey := List.find?_some hfind
    have hk : p.1 = k := by simpa using hkey
    obtain ⟨h1, h2⟩ := hc p hmem
    rw [hk] at h1 h2
    exact ⟨h1, h2⟩

theorem fetch_document_err {env : Env} (he : env.enabled = true)
    {doc_id : String} (doc_type : String) {c : List (String × SourceDocument)}
    (hmiss : cacheLookup c doc_id = none) (hbad : oracleOk env doc_id = false) :
    fetch_document env doc_id doc_type c =
      (none, c, [env.baseUrl ++ "/documents/" ++ doc_id]) := by
  unfold fetch_document
  rw [he, hmiss]
  unfold oracleOk at hbad
  cases houtcome : env.oracle doc_id with
  | ok p => rw [houtcome] at hbad; cases hbad
  | httpErr code => simp [houtcome]
  | netErr reason => simp [houtcome]
  | otherErr msg => simp [houtcome]

theorem fetch_document_cases {env : Env} (he : env.enabled = true)
    (doc_id doc_type : String) {c : List (String × SourceDocument)}
    (hc : cacheSound env c) :
    (∀ d, (fetch_document env doc_id doc_type c).1 = some d → d.doc_id = doc_id)
    ∧ ((fetch_document env doc_id doc_type c).1.isSome =
        ((cacheLookup c doc_id).isSome || oracleOk env doc_id))
    ∧ cacheSound env (fetch_document env doc_id doc_type c).2.1 := by
  unfold fetch_document
  rw [he]
  simp only [Bool.not_true, Bool.false_eq_true, if_false]
  cases hl : cacheLookup c doc_id with
  | some d =>
    obtain ⟨h1, h2⟩ := cacheLookup_sound hc hl
    refine ⟨?_, ?_, ?_⟩
    · intro d' hd'
      simp only [Option.some.injEq] at hd'
      rw [← hd', h1]
    · simp [h2]
    · simpa using hc
  | none =>
    cases houtcome : env.oracle doc_id with
    | ok p =>
      refine ⟨?_, ?_, ?_⟩
      · intro d' hd'
        simp only [Option.some.injEq] at hd'
        rw [← hd']
      · simp [oracleOk, houtcome]
      · intro q hq
        simp only [List.mem_append, List.mem_singleton] at hq
        rcases hq with hq | hq
        · exact hc q hq
        · rw [hq]
          exact ⟨rfl, by simp [oracleOk, houtcome]⟩
    | httpErr code =>
      refine ⟨?_, ?_, ?_⟩
      · intro d' hd'
        cases hd'
      · simp [oracleOk, houtcome]
      · simpa using hc
    | netErr reason =>
      refine ⟨?_, ?_, ?_⟩
      · intro d' hd'
        cases hd'
      · simp [oracleOk, houtcome]
      · simpa using hc
    | otherErr msg =>
      refine ⟨?_, ?_, ?_⟩
      · intro d' hd'
        cases hd'
      · simp [oracleOk, houtcome]
      · simpa using hc

theorem oracleOk_of_hit {env : Env} {c : List (String × SourceDocument)}
    (hc : cacheSound env c) {i : String}
    (h : ((cacheLookup c i).isSome || oracleOk env i) = true) :
    oracleOk env i = true := by
  cases hl : cacheLookup c i with
  | some d => exact (cacheLookup_sound hc hl).2
  | none => rw [hl] at h; simpa using h

/-- fetch_multiple returns exactly the documents of the identifiers whose
fetches succeed, in request order, and preserves cache soundness. -/
theorem fetch_multiple_filter {env : Env} (he : env.enabled = true) :
    ∀ (ids : List String) (c : List (String × SourceDocument)), cacheSound env c →
      ((fetch_multiple env ids c).1.map (fun d => d.doc_id)
          = ids.filter (oracleOk env))
      ∧ cacheSound env (fetch_multiple env ids c).2.1 := by
  intro ids
  induction ids with
  | nil => intro c hc; exact ⟨rfl, hc⟩
  | cons i rest ih =>
    intro c hc
    obtain ⟨hid, hsome, hsound⟩ := fetch_document_cases he i "unknown" hc
    obtain ⟨ihmap, ihsound⟩ := ih _ hsound
    cases hf : (fetch_document env i "unknown" c).1 with
    | some doc =>
      have hok : oracleOk env i = true := by
        apply oracleOk_of_hit hc
        rw [← hsome, hf]
        rfl
      have hdoc : doc.doc_id = i := hid doc hf
      constructor
      · show ((fetch_multiple env (i :: rest) c).1.map (fun d => d.doc_id)) = _
        unfold fetch_multiple
        simp only [hf]
        simp only [List.map_cons, List.filter_cons, hok, if_true, hdoc]
        rw [ihmap]
      · show cacheSound env (fetch_multiple env (i :: rest) c).2.1
        unfold fetch_multiple
        simp only [hf]
        exact ihsound
    | none =>
      have hok : oracleOk env i = false := by
        have := hsome
        rw [hf] at this
        cases hl : cacheLookup c i with
        | some d =>
          exfalso
          rw [hl] at this
          simp at this
        | none =>
          rw [hl] at this
          simpa using this.symm
      constructor
      · show ((fetch_multiple env (i :: rest) c).1.map (fun d => d.doc_id)) = _
        unfold fetch_multiple
        simp only [hf]
        simp only [List.filter_cons, hok]
        rw [ihmap]
        simp
      · show cacheSound env (fetch_multiple env (i :: rest) c).2.1
        unfold fetch_multiple
        simp only [hf]
        exact ihsound

/-- C7: retrieval errors never escape the client: with the client enabled, a
cache miss whose network outcome is any error (HTTP error, transport error or
malformed payload) yields absent with the cache unchanged and one logged
request; and fetch_multiple, started from the client's fresh empty cache,
returns exactly the documents of the identifiers whose fetches succeed, in
request order. -/
theorem claim_C7_fetch_errors :
    (∀ (env : Env) (doc_id doc_type : String) (c : List (String × SourceDocument)),
      env.enabled = true → cacheLookup c doc_id = none → oracleOk env doc_id = false →
      fetch_document env doc_id doc_type c =
        (none, c, [env.baseUrl ++ "/documents/" ++ doc_id]))
    ∧ (∀ (env : Env) (ids : List String), env.enabled = true →
      (fetch_multiple env ids []).1.map (fun d => d.doc_id) = ids.filter (oracleOk env)) := by
  constructor
  · intro env doc_id doc_type c he hmiss hbad
    exact fetch_document_err he doc_type hmiss hbad
  · intro env ids he
    exact (fetch_multiple_filter he ids [] (cacheSound_nil env)).1

/-- A small network for the witness: one good document, one transport error,
everything else not found. -/
def c7Oracle : String → FetchOutcome := fun doc_id =>
  if doc_id == "a" then .ok { ptitle := some "A", pcontent := "hello" }
  else if doc_id == "n" then .netErr "refused"
  else .httpErr 404

/-- An enabled client over that network. -/
def c7Env : Env :=
  { enabled := true, enableDeep := false, baseUrl := "https://api.test",
    oracle := c7Oracle, setOrder := fun l => l }

theorem claim_C7_fetch_errors_witness :
    fetch_document c7Env "n" "unknown" [] =
      (none, [], ["https://api.test/documents/n"])
    ∧ (fetch_multiple c7Env ["a", "n", "b", "a"] []).1.map (fun d => d.doc_id)
      = ["a", "n", "b", "a"].filter (oracleOk c7Env) :=
  ⟨claim_C7_fetch_errors.1 c7Env "n" "unknown" [] rfl rfl rfl,
   claim_C7_fetch_errors.2 c7Env ["a", "n", "b", "a"] rfl⟩

/-- First Scenario D specification item. -/
def scenarioDItem1 : SpecificationItem :=
  { id := "SPEC_d1", text := "The API returns results within 2 seconds", line_number := 1 }

/-- Second Scenario D specification item. -/
def scenarioDItem2 : SpecificationItem :=
  { id := "SPEC_d2", text := "The API does not guarantee any response time bound",
    line_number := 2 }

/-- The verifier state loaded with the two Scenario D items. -/
def scenarioDState : St := St.init [] [] [scenarioDItem1, scenarioDItem2]

/-- C3 — counterexample: the contradiction heuristic classifies the Scenario D
pair as NOT contradictory.  After the length (> 3) and stop-word filters the
two key-term sets are {returns, results, within, seconds} and
{guarantee, response, time, bound}: they are disjoint ("api" is only three
characters long and is filtered out, and no remaining term is shared), so the
overlap gates fail before the negation test is reached. -/
theorem claim_C3_contradiction_cex :
    are_contradictory scenarioDItem1.text scenarioDItem2.text = false := by
  decide

/-- C3 — amended: for the two Scenario D items the filtered key-term sets are
disjoint, the pair is classified as non-contradictory, and the contradiction
check produces no Violation at all on a specification consisting of these two
items. -/
theorem claim_C3_no_contradiction :
    ((extract_key_terms scenarioDItem1.text).dedup.filter
        (fun t => (extract_key_terms scenarioDItem2.text).dedup.contains t)) = []
    ∧ (check_contradictions inertEnv scenarioDState).violations = [] := by
  constructor
  · decide
  · decide

/-- The Scenario C principle. -/
def scenarioCPrinciple : Principle :=
  { id := "PRIN_c", text := "Sensitive data must never appear in logs.",
    category := "GENERAL", mandatory := true, line_number := 1 }

/-- The Scenario C specification item. -/
def scenarioCItem : SpecificationItem :=
  { id := "SPEC_c",
    text := "All authentication attempts are logged, including failed password fields for debugging.",
    line_number := 3 }

/-- The verifier state loaded with the Scenario C principle and item. -/
def scenarioCState : St := St.init [] [scenarioCPrinciple] [scenarioCItem]

/-- C4 — counterexample: the Scenario C principle does not take the prohibition
branch ("must never" contains none of the phrases "must not", "shall not",
"cannot", "prohibited"), and the produced CRITICAL violation's evidence is the
not-addressed message: no evidence string references the specification line. -/
theorem claim_C4_principle_cex :
    prohibitionPhrases.any (fun ph => pyIn ph (pyLower scenarioCPrinciple.text)) = false
    ∧ ((check_principle_violations inertEnv scenarioCState).violations.map
        (fun v => v.evidence)) =
      [["Principle \x27Sensitive data must never appear in logs....\x27 not addressed in specification"]]
    ∧ ((check_principle_violations inertEnv scenarioCState).violations.all
        (fun v => v.evidence.all (fun e => !pyIn "violated by spec at line" e))) = true := by
  refine ⟨by decide, by decide, by decide⟩

/-- C4 — amended: the Scenario C principle takes the obligation branch (its
text contains "must" but no prohibition phrase); none of its key terms
{sensitive, data, never, appear, logs} occurs in the specification corpus (in
particular "logs" is not a substring of "logged"), so the check records the
principle as not addressed and emits one aggregate CRITICAL
PRINCIPLE_VIOLATION Violation whose evidence says so, without referencing the
specification line. -/
theorem claim_C4_principle_not_addressed :
    principle_violations_found [scenarioCPrinciple] [scenarioCItem] =
      [(scenarioCPrinciple, none, "Not addressed")]
    ∧ (check_principle_violations inertEnv scenarioCState).violations =
      [{ severity := .CRITICAL
         category := "PRINCIPLE_VIOLATION"
         title := "1 principle violations detected"
         description := "Mandatory principles have been violated or ignored:"
         evidence := ["Principle \x27Sensitive data must never appear in logs....\x27 not addressed in specification"] }] := by
  refine ⟨by decide, by decide⟩

/-- A specification item every token of which is at most three characters long,
so its filtered keyword set is empty. -/
def shortTokenItem : SpecificationItem :=
  { id := "SPEC_e", text := "an ox, a cow and an elk", line_number := 7 }

/-- C5 — counterexample: a specification item whose filtered token set is empty
(every token has at most three characters) trivially shares no tokens with any
requirement, yet the orphan check skips it entirely: with it as the only
specification item and no requirements, no SCOPE_CREEP Violation is produced
at all, so the item appears in no evidence and no line-number list. -/
theorem claim_C5_orphan_cex :
    keywordSet shortTokenItem.text = []
    ∧ (check_orphaned_specifications inertEnv (St.init [] [] [shortTokenItem])).violations
      = [] := by
  refine ⟨by decide, by decide⟩

/-- C5 — amended: every specification item with a nonempty filtered keyword set
none of whose keywords occurs in the concatenated requirement text is reported:
the orphan check then appends exactly one HIGH SCOPE_CREEP Violation whose
line-number list contains the item's line; items whose filtered token set is
empty are skipped and never reported. -/
theorem claim_C5_orphan_totality (env : Env) (s : St) (item : SpecificationItem)
    (hmem : item ∈ s.specifications)
    (hkw : keywordSet item.text ≠ [])
    (hnone : keywordMatches item.text (reqCorpus s.requirements) = 0) :
    ∃ v : Violation,
      (check_orphaned_specifications env s).violations = s.violations ++ [v]
      ∧ v.severity = .HIGH ∧ v.category = "SCOPE_CREEP"
      ∧ item.line_number ∈ v.line_numbers := by
  have hitem : item ∈ orphaned_specs s.requirements s.specifications := by
    unfold orphaned_specs
    refine List.mem_filter.2 ⟨hmem, ?_⟩
    have h1 : (keywordSet item.text).isEmpty = false := by
      cases hks : keywordSet item.text with
      | nil => exact absurd hks hkw
      | cons a t => rfl
    have h2 : 10 * keywordMatches item.text (reqCorpus s.requirements)
        < 3 * (keywordSet item.text).length := by
      rw [hnone]
      have : 0 < (keywordSet item.text).length := List.length_pos.2 hkw
      omega
    simp [h1, h2]
  have hne : (orphaned_specs s.requirements s.specifications).isEmpty = false := by
    cases hl : orphaned_specs s.requirements s.specifications with
    | nil => rw [hl] at hitem; cases hitem
    | cons a t => rfl
  refine ⟨orphan_violation (orphaned_specs s.requirements s.specifications), ?_, rfl, rfl, ?_⟩
  · rw [check_orphaned_specifications_shape, orphanNew, hne]
    rfl
  · unfold orphan_violation
    simp only [List.mem_map]
    exact ⟨item, hitem, rfl⟩

/-- A concrete orphaned specification item for the witness. -/
def c5Item : SpecificationItem :=
  { id := "SPEC_c5", text := "delta echo foxtrot golf words", line_number := 9 }

theorem claim_C5_orphan_totality_witness :
    ∃ v : Violation,
      (check_orphaned_specifications inertEnv (St.init [] [] [c5Item])).violations
        = (St.init [] [] [c5Item]).violations ++ [v]
      ∧ v.severity = .HIGH ∧ v.category = "SCOPE_CREEP"
      ∧ c5Item.line_number ∈ v.line_numbers :=
  claim_C5_orphan_totality inertEnv (St.init [] [] [c5Item]) c5Item
    (by decide) (by decide) (by decide)

theorem severityCount_pos_iff (vs : List Violation) (sev : Severity) :
    0 < severityCount vs sev ↔ ∃ v ∈ vs, v.severity = sev := by
  unfold severityCount
  rw [List.length_pos]
  constructor
  · intro h
    obtain ⟨v, hv⟩ := List.exists_mem_of_ne_nil _ h
    have := List.mem_filter.1 hv
    exact ⟨v, this.1, by simpa using this.2⟩
  · rintro ⟨v, hmem, hsev⟩
    intro hnil
    have : v ∈ List.filter (fun v => v.severity == sev) vs :=
      List.mem_filter.2 ⟨hmem, by simp [hsev]⟩
    rw [hnil] at this
    cases this

/-- C2: the verdict is the stated total function of the severity histogram —
any CRITICAL violation forces FAILED; otherwise more than five HIGH gives
CONDITIONAL FAIL; otherwise any HIGH gives PASS WITH CONCERNS; otherwise
PASSED — two violation lists with the same histogram get the same verdict, and
the report orders violations by severity rank (CRITICAL first, then HIGH,
MEDIUM, LOW, INFO), as a permutation of the accumulator. -/
theorem claim_C2_verdict_policy :
    (∀ vs : List Violation,
      ((∃ v ∈ vs, v.severity = .CRITICAL) →
        verdictLine vs = "❌ FAILED - " ++ toString (severityCount vs .CRITICAL) ++
          " CRITICAL issues must be resolved")
      ∧ ((¬ ∃ v ∈ vs, v.severity = .CRITICAL) → 5 < severityCount vs .HIGH →
        verdictLine vs = "⚠️  CONDITIONAL FAIL - " ++ toString (severityCount vs .HIGH) ++
          " HIGH severity issues need attention")
      ∧ ((¬ ∃ v ∈ vs, v.severity = .CRITICAL) → severityCount vs .HIGH ≤ 5 →
          0 < severityCount vs .HIGH →
        verdictLine vs = "⚠️  PASS WITH CONCERNS - " ++ toString (severityCount vs .HIGH) ++
          " HIGH severity issues present")
      ∧ ((¬ ∃ v ∈ vs, v.severity = .CRITICAL) → severityCount vs .HIGH = 0 →
        verdictLine vs = "✅ PASSED - Minor issues only"))
    ∧ (∀ vs₁ vs₂ : List Violation,
        (∀ sev, severityCount vs₁ sev = severityCount vs₂ sev) →
        verdictLine vs₁ = verdictLine vs₂)
    ∧ (∀ vs : List Violation,
        (sorted_violations vs).Pairwise
          (fun a b => severityRank a.severity ≤ severityRank b.severity)
        ∧ (sorted_violations vs).Perm vs) := by
  refine ⟨?_, ?_, ?_⟩
  · intro vs
    refine ⟨?_, ?_, ?_, ?_⟩
    · intro h
      have hc : 0 < severityCount vs .CRITICAL := (severityCount_pos_iff vs .CRITICAL).2 h
      unfold verdictLine
      rw [if_pos hc]
    · intro h hh
      have hc : ¬ 0 < severityCount vs .CRITICAL :=
        fun hpos => h ((severityCount_pos_iff vs .CRITICAL).1 hpos)
      unfold verdictLine
      rw [if_neg hc, if_pos hh]
    · intro h hle hpos
      have hc : ¬ 0 < severityCount vs .CRITICAL :=
        fun hpos2 => h ((severityCount_pos_iff vs .CRITICAL).1 hpos2)
      unfold verdictLine
      rw [if_neg hc, if_neg (by omega), if_pos hpos]
    · intro h hz
      have hc : ¬ 0 < severityCount vs .CRITICAL :=
        fun hpos2 => h ((severityCount_pos_iff vs .CRITICAL).1 hpos2)
      unfold verdictLine
      rw [if_neg hc, if_neg (by omega), if_neg (by omega)]
  · intro vs₁ vs₂ h
    unfold verdictLine
    rw [h Severity.CRITICAL, h Severity.HIGH]
  · intro vs
    constructor
    · have hp := @List.sorted_mergeSort Violation
        (fun a b =>
          decide (severityRank a.severity ≤ severityRank b.severity))
        (fun a b c hab hbc => by
          simp only [decide_eq_true_eq] at hab hbc ⊢
          omega)
        (fun a b => by
          simp only [Bool.or_eq_true, decide_eq_true_eq]
          omega)
        vs
      exact hp.imp (fun h => by simpa using h)
    · exact List.mergeSort_perm vs _

/-- A concrete CRITICAL violation for the verdict witness. -/
def c2CritViolation : Violation :=
  { severity := .CRITICAL, category := "COVERAGE",
    title := "2 requirements have NO coverage in specification",
    description := "The following requirements are completely missing from the specification:" }

/-- A concrete HIGH violation for the verdict witness. -/
def c2HighViolation : Violation :=
  { severity := .HIGH, category := "SCOPE_CREEP",
    title := "1 specification items appear to be out of scope",
    description := "These specifications don\x27t clearly relate to any input requirements:" }

theorem claim_C2_verdict_policy_witness :
    verdictLine [c2CritViolation] = "❌ FAILED - 1 CRITICAL issues must be resolved"
    ∧ verdictLine [c2HighViolation] =
        "⚠️  PASS WITH CONCERNS - 1 HIGH severity issues present"
    ∧ (sorted_violations [c2HighViolation, c2CritViolation]).Pairwise
        (fun a b => severityRank a.severity ≤ severityRank b.severity) :=
  ⟨(claim_C2_verdict_policy.1 [c2CritViolation]).1
      ⟨c2CritViolation, List.mem_singleton.2 rfl, rfl⟩,
   (claim_C2_verdict_policy.1 [c2HighViolation]).2.2.1
      (by decide) (by decide) (by decide),
   (claim_C2_verdict_policy.2.2 [c2HighViolation, c2CritViolation]).1⟩

theorem covEnrichStep_core (env : Env)
    (acc : Violation × List (String × SourceDocument) × List String)
    (req : Requirement) : ((covEnrichStep env acc req).1).core = acc.1.core := by
  unfold covEnrichStep
  split
  · rfl
  · dsimp only
    split
    · split <;> rfl
    · rfl

theorem covEnrichFold_core (env : Env) (l : List Requirement) :
    ∀ acc, ((l.foldl (covEnrichStep env) acc).1).core = acc.1.core := by
  induction l with
  | nil => intro acc; rfl
  | cons a t ih =>
    intro acc
    rw [List.foldl_cons, ih, covEnrichStep_core]

theorem core_fields {v w : Violation} (h : v.core = w.core) :
    v.severity = w.severity ∧ v.category = w.category ∧ v.evidence = w.evidence :=
  ⟨congrArg ViolationCore.severity h, congrArg ViolationCore.category h,
    congrArg ViolationCore.evidence h⟩

theorem covResult_shape (env : Env) (s : St) :
    (covResult env s).1 =
      (if (cov_uncovered s.requirements s.specifications).isEmpty then []
       else if env.enableDeep then
         [(((cov_uncovered s.requirements s.specifications).take 3).foldl
            (covEnrichStep env)
            (cov_uncovered_violation (cov_uncovered s.requirements s.specifications),
              s.cache, s.netLog)).1]
       else [cov_uncovered_violation (cov_uncovered s.requirements s.specifications)])
      ++ (if (cov_partly s.requirements s.specifications).isEmpty then []
          else [cov_partly_violation (cov_partly s.requirements s.specifications)]) := by
  unfold covResult
  by_cases h1 : (cov_uncovered s.requirements s.specifications).isEmpty <;>
  by_cases hd : env.enableDeep <;> simp [h1, hd]

/-- The Scenario A specification item. -/
def scenarioAItem : SpecificationItem :=
  { id := "SPEC_a", text := "Search supports title and author lookup.", line_number := 1 }

/-- The Scenario A requirement, as the extractor produces it from the line
"The system MUST allow search by title, author, or ISBN." (the capture starts
after the matched MUST trigger). -/
def scenarioAReq : Requirement :=
  { id := "REQ_a", text := "allow search by title, author, or ISBN",
    source := "HUMAN_INPUT:reqs.txt", line_number := 1 }

/-- C1: coverage classification — for every requirement with at least one
token longer than three characters, the coverage fraction against the
concatenated specification text decides its fate: fraction 0 puts it in the
uncovered list, a fraction strictly between 0 and 0.5 in the partially covered
list, and a fraction of at least 0.5 in neither; the check appends one
aggregate CRITICAL COVERAGE violation listing up to five uncovered examples
and one aggregate HIGH one for partial coverage; and in Scenario A the
extractor captures "allow search by title, author, or ISBN", whose coverage
against "Search supports title and author lookup." is exactly 3/5 = 0.6, so
the requirement is flagged neither uncovered nor partially covered. -/
theorem claim_C1_coverage_classification :
    (∀ (reqs : List Requirement) (specs : List SpecificationItem) (r : Requirement),
      r ∈ reqs → keywordSet r.text ≠ [] →
      ((coverageOf r.text (specCorpus specs) = 0 ↔ r ∈ cov_uncovered reqs specs)
        ∧ ((0 < coverageOf r.text (specCorpus specs)
              ∧ coverageOf r.text (specCorpus specs) < 1 / 2)
            ↔ r ∈ cov_partly reqs specs)
        ∧ (1 / 2 ≤ coverageOf r.text (specCorpus specs) →
            r ∉ cov_uncovered reqs specs ∧ r ∉ cov_partly reqs specs)))
    ∧ (∀ (env : Env) (s : St),
        ∃ uncVs partVs : List Violation,
          (check_requirement_coverage env s).violations = s.violations ++ uncVs ++ partVs
          ∧ (cov_uncovered s.requirements s.specifications = [] ↔ uncVs = [])
          ∧ (∀ v ∈ uncVs, v.severity = .CRITICAL ∧ v.category = "COVERAGE"
              ∧ v.evidence =
                ((cov_uncovered s.requirements s.specifications).take 5).map covEvidence)
          ∧ (cov_partly s.requirements s.specifications = [] ↔ partVs = [])
          ∧ (∀ v ∈ partVs, v.severity = .HIGH ∧ v.category = "COVERAGE"
              ∧ v.evidence =
                ((cov_partly s.requirements s.specifications).take 5).map covEvidence))
    ∧ (extract_requirement_text "The system MUST allow search by title, author, or ISBN."
        = some "allow search by title, author, or ISBN"
      ∧ coverageOf scenarioAReq.text (specCorpus [scenarioAItem]) = 3 / 5
      ∧ scenarioAReq ∉ cov_uncovered [scenarioAReq] [scenarioAItem]
      ∧ scenarioAReq ∉ cov_partly [scenarioAReq] [scenarioAItem]) := by
  refine ⟨?_, ?_, ?_, ?_, ?_, ?_⟩
  · intro reqs specs r hmem hkw
    have hkwb : (keywordSet r.text).isEmpty = false := by
      cases h : keywordSet r.text with
      | nil => exact absurd h hkw
      | cons a t => rfl
    have htot : 0 < (keywordSet r.text).length := List.length_pos.2 hkw
    refine ⟨?_, ?_, ?_⟩
    · constructor
      · intro hcov
        have hm : keywordMatches r.text (specCorpus specs) = 0 :=
          (coverage_eq_zero_iff hkw).1 hcov
        unfold cov_uncovered
        exact List.mem_filter.2 ⟨hmem, by simp [hkwb, hm]⟩
      · intro hmem2
        unfold cov_uncovered at hmem2
        have hp := (List.mem_filter.1 hmem2).2
        simp only [hkwb, Bool.not_false, Bool.true_and, beq_iff_eq] at hp
        exact (coverage_eq_zero_iff hkw).2 hp
    · constructor
      · rintro ⟨hpos, hhalf⟩
        have hm : keywordMatches r.text (specCorpus specs) ≠ 0 := by
          intro h0
          rw [(coverage_eq_zero_iff hkw).2 h0] at hpos
          exact lt_irrefl 0 hpos
        have h2 : 2 * keywordMatches r.text (specCorpus specs)
            < (keywordSet r.text).length := (coverage_lt_half_iff hkw).1 hhalf
        unfold cov_partly
        refine List.mem_filter.2 ⟨hmem, ?_⟩
        simp [hkwb, hm, h2]
      · intro hmem2
        unfold cov_partly at hmem2
        have hp := (List.mem_filter.1 hmem2).2
        simp only [hkwb, Bool.not_false, Bool.true_and, Bool.and_eq_true,
          Bool.not_eq_true', beq_eq_false_iff_ne, ne_eq, decide_eq_true_eq] at hp
        obtain ⟨hm, h2⟩ := hp
        constructor
        · rcases lt_or_eq_of_le (coverage_nonneg r.text (specCorpus specs)) with h | h
          · exact h
          · exact absurd ((coverage_eq_zero_iff hkw).1 h.symm) hm
        · exact (coverage_lt_half_iff hkw).2 h2
    · intro hge
      constructor
      · intro hmem2
        unfold cov_uncovered at hmem2
        have hp := (List.mem_filter.1 hmem2).2
        simp only [hkwb, Bool.not_false, Bool.true_and, beq_iff_eq] at hp
        rw [(coverage_eq_zero_iff hkw).2 hp] at hge
        norm_num at hge
      · intro hmem2
        unfold cov_partly at hmem2
        have hp := (List.mem_filter.1 hmem2).2
        simp only [hkwb, Bool.not_false, Bool.true_and, Bool.and_eq_true,
          Bool.not_eq_true', beq_eq_false_iff_ne, ne_eq, decide_eq_true_eq] at hp
        have h2 := (coverage_lt_half_iff hkw).2 hp.2
        exact absurd hge (not_le.2 h2)
  · intro env s
    by_cases h1 : (cov_uncovered s.requirements s.specifications).isEmpty
    · have h1' : cov_uncovered s.requirements s.specifications = [] :=
        List.isEmpty_iff.1 h1
      refine ⟨[], (if (cov_partly s.requirements s.specifications).isEmpty then []
        else [cov_partly_violation (cov_partly s.requirements s.specifications)]),
        ?_, ?_, ?_, ?_, ?_⟩
      · show (s.violations ++ (covResult env s).1) = _
        rw [covResult_shape, if_pos h1]
        simp
      · simp [h1']
      · intro v hv
        cases hv
      · constructor
        · intro hp
          rw [hp]
          simp
        · intro hp
          split at hp
          · exact List.isEmpty_iff.1 (by assumption)
          · cases hp
      · intro v hv
        split at hv
        · cases hv
        · rw [List.mem_singleton.1 hv]
          exact ⟨rfl, rfl, rfl⟩
    · have h1' : cov_uncovered s.requirements s.specifications ≠ [] := by
        intro h
        rw [h] at h1
        exact absurd rfl h1
      by_cases hd : env.enableDeep
      · refine ⟨[(((cov_uncovered s.requirements s.specifications).take 3).foldl
            (covEnrichStep env)
            (cov_uncovered_violation (cov_uncovered s.requirements s.specifications),
              s.cache, s.netLog)).1],
          (if (cov_partly s.requirements s.specifications).isEmpty then []
           else [cov_partly_violation (cov_partly s.requirements s.specifications)]),
          ?_, ?_, ?_, ?_, ?_⟩
        · show (s.violations ++ (covResult env s).1) = _
          rw [covResult_shape, if_neg h1, if_pos hd, List.append_assoc]
        · constructor
          · intro h
            exact absurd h h1'
          · intro h
            cases h
        · intro v hv
          rw [List.mem_singleton.1 hv]
          have hcore := covEnrichFold_core env
            ((cov_uncovered s.requirements s.specifications).take 3)
            (cov_uncovered_violation (cov_uncovered s.requirements s.specifications),
              s.cache, s.netLog)
          exact core_fields hcore
        · constructor
          · intro hp
            rw [hp]
            simp
          · intro hp
            split at hp
            · exact List.isEmpty_iff.1 (by assumption)
            · cases hp
        · intro v hv
          split at hv
          · cases hv
          · rw [List.mem_singleton.1 hv]
            exact ⟨rfl, rfl, rfl⟩
      · refine ⟨[cov_uncovered_violation (cov_uncovered s.requirements s.specifications)],
          (if (cov_partly s.requirements s.specifications).isEmpty then []
           else [cov_partly_violation (cov_partly s.requirements s.specifications)]),
          ?_, ?_, ?_, ?_, ?_⟩
        · show (s.violations ++ (covResult env s).1) = _
          rw [covResult_shape, if_neg h1, if_neg hd, List.append_assoc]
        · constructor
          · intro h
            exact absurd h h1'
          · intro h
            cases h
        · intro v hv
          rw [List.mem_singleton.1 hv]
          exact ⟨rfl, rfl, rfl⟩
        · constructor
          · intro hp
            rw [hp]
            simp
          · intro hp
            split at hp
            · exact List.isEmpty_iff.1 (by assumption)
            · cases hp
        · intro v hv
          split at hv
          · cases hv
          · rw [List.mem_singleton.1 hv]
            exact ⟨rfl, rfl, rfl⟩
  · decide
  · have h1 : keywordMatches scenarioAReq.text (specCorpus [scenarioAItem]) = 3 := by
      decide
    have h2 : (keywordSet scenarioAReq.text).length = 5 := by decide
    have h3 : keywordSet scenarioAReq.text ≠ [] := by decide
    unfold coverageOf
    rw [if_neg h3, h1, h2]
    norm_num
  · decide
  · decide

theorem claim_C1_coverage_classification_witness :
    (coverageOf scenarioAReq.text (specCorpus [scenarioAItem]) = 0
        ↔ scenarioAReq ∈ cov_uncovered [scenarioAReq] [scenarioAItem])
    ∧ ((0 < coverageOf scenarioAReq.text (specCorpus [scenarioAItem])
          ∧ coverageOf scenarioAReq.text (specCorpus [scenarioAItem]) < 1 / 2)
        ↔ scenarioAReq ∈ cov_partly [scenarioAReq] [scenarioAItem])
    ∧ (1 / 2 ≤ coverageOf scenarioAReq.text (specCorpus [scenarioAItem]) →
        scenarioAReq ∉ cov_uncovered [scenarioAReq] [scenarioAItem]
        ∧ scenarioAReq ∉ cov_partly [scenarioAReq] [scenarioAItem]) :=
  claim_C1_coverage_classification.1 [scenarioAReq] [scenarioAItem] scenarioAReq
    (List.mem_singleton.2 rfl) (by decide)

namespace Basic

/-- Appending a batch of violations to a basic-verifier state. -/
def appendViolations (s : St) (l : List BViolation) : St :=
  { s with violations := s.violations ++ l }

/-- The violations the basic coverage check appends. -/
def covNew (s : St) : List BViolation :=
  (if (cov_uncovered s.requirements s.specifications).isEmpty then []
   else
     [{ severity := .CRITICAL
        category := "COVERAGE"
        title := toString (cov_uncovered s.requirements s.specifications).length ++
          " requirements have NO coverage in specification"
        description := "The following requirements are completely missing from the specification:"
        evidence := ((cov_uncovered s.requirements s.specifications).take 5).map covEvidence }])
  ++ (if (cov_partly s.requirements s.specifications).isEmpty then []
      else
        [{ severity := .HIGH
           category := "COVERAGE"
           title := toString (cov_partly s.requirements s.specifications).length ++
             " requirements have PARTIAL coverage"
           description := "These requirements are only partially addressed:"
           evidence := ((cov_partly s.requirements s.specifications).take 5).map covEvidence }])

/-- The violation the basic orphan check appends. -/
def orphanNew (s : St) : List BViolation :=
  if (orphaned_specs s.requirements s.specifications).isEmpty then []
  else
    [{ severity := .HIGH
       category := "SCOPE_CREEP"
       title := toString (orphaned_specs s.requirements s.specifications).length ++
         " specification items appear to be out of scope"
       description := "These specifications don\x27t clearly relate to any input requirements:"
       evidence := ((orphaned_specs s.requirements s.specifications).take 5).map orphanEvidence
       line_numbers := (orphaned_specs s.requirements s.specifications).map
         (fun sp => sp.line_number) }]

/-- The violation the basic principle check appends. -/
def principleNew (s : St) : List BViolation :=
  if (principle_violations_found s.principles s.specifications).isEmpty then []
  else
    [{ severity := .CRITICAL
       category := "PRINCIPLE_VIOLATION"
       title := toString (principle_violations_found s.principles s.specifications).length ++
         " principle violations detected"
       description := "Mandatory principles have been violated or ignored:"
       evidence := ((principle_violations_found s.principles s.specifications).take 5).map
         principleEvidence }]

/-- The violation the basic ambiguity check appends. -/
def ambiguityNew (s : St) : List BViolation :=
  if (ambiguous_specs_found s.specifications).isEmpty then []
  else
    [{ severity := .MEDIUM
       category := "AMBIGUITY"
       title := toString (ambiguous_specs_found s.specifications).length ++
         " ambiguous specifications detected"
       description := "These specifications contain vague or ambiguous language:"
       evidence := ((ambiguous_specs_found s.specifications).take 5).map ambiguityEvidence
       line_numbers := (ambiguous_specs_found s.specifications).map
         (fun e => e.1.line_number) }]

/-- The violation the basic contradiction check appends. -/
def contradictionNew (s : St) : List BViolation :=
  if ((orderedPairs s.specifications).filter
      (fun e => are_contradictory e.1.text e.2.text)).isEmpty then []
  else
    [{ severity := .CRITICAL
       category := "CONTRADICTION"
       title := toString ((orderedPairs s.specifications).filter
           (fun e => are_contradictory e.1.text e.2.text)).length ++
         " potential contradictions found"
       description := "These specification pairs may contradict each other:"
       evidence := (((orderedPairs s.specifications).filter
           (fun e => are_contradictory e.1.text e.2.text)).take 3).map contradictionEvidence
       line_numbers := (((orderedPairs s.specifications).filter
           (fun e => are_contradictory e.1.text e.2.text)).map
         (fun e => [e.1.line_number, e.2.line_number])).flatten }]

/-- The violation the basic completeness check appends. -/
def completenessNew (s : St) : List BViolation :=
  if (missing_aspects s.requirements s.specifications).isEmpty then []
  else
    [{ severity := .HIGH
       category := "COMPLETENESS"
       title := "Missing " ++ toString (missing_aspects s.requirements s.specifications).length ++
         " important aspects"
       description := "Requirements mention these aspects, but specification doesn\x27t address them:"
       evidence := missing_aspects s.requirements s.specifications }]

/-- The violation the basic vagueness check appends. -/
def vaguenessNew (s : St) : List BViolation :=
  if (s.specifications.filter isVague).isEmpty then []
  else
    [{ severity := .MEDIUM
       category := "VAGUENESS"
       title := toString (s.specifications.filter isVague).length ++ " vague specifications"
       description := "These specifications lack concrete details or measurable criteria:"
       evidence := ((s.specifications.filter isVague).take 5).map lineTextEvidence
       line_numbers := (s.specifications.filter isVague).map (fun sp => sp.line_number) }]

/-- The violation the basic testability check appends. -/
def testabilityNew (s : St) : List BViolation :=
  if (s.specifications.filter isUntestable).isEmpty then []
  else
    [{ severity := .MEDIUM
       category := "TESTABILITY"
       title := toString (s.specifications.filter isUntestable).length ++
         " specifications may not be testable"
       description := "These specifications lack concrete, measurable acceptance criteria:"
       evidence := ((s.specifications.filter isUntestable).take 5).map lineTextEvidence
       line_numbers := (s.specifications.filter isUntestable).map (fun sp => sp.line_number) }]

/-- The violation the basic consistency check appends. -/
def consistencyNew (s : St) : List BViolation :=
  if (consistency_issues s.specifications).isEmpty then []
  else
    [{ severity := .LOW
       category := "CONSISTENCY"
       title := toString (consistency_issues s.specifications).length ++ " consistency issues"
       description := "Found inconsistent terminology or formatting:"
       evidence := consistency_issues s.specifications }]

/-- All violations the basic battery appends, in check order. -/
def batteryNew (s : St) : List BViolation :=
  covNew s ++ orphanNew s ++ principleNew s ++ ambiguityNew s ++ contradictionNew s ++
    completenessNew s ++ vaguenessNew s ++ testabilityNew s ++ consistencyNew s

end Basic

namespace Basic

theorem b_appendViolations_append (s : St) (a b : List BViolation) :
    appendViolations (appendViolations s a) b = appendViolations s (a ++ b) := by
  simp [appendViolations]

theorem b_check_requirement_coverage_shape (s : St) :
    check_requirement_coverage s = appendViolations s (covNew s) := by
  by_cases h1 : (cov_uncovered s.requirements s.specifications).isEmpty <;>
  by_cases h2 : (cov_partly s.requirements s.specifications).isEmpty <;>
    simp [check_requirement_coverage, covNew, appendViolations, h1, h2]

theorem b_check_orphaned_specifications_shape (s : St) :
    check_orphaned_specifications s = appendViolations s (orphanNew s) := by
  by_cases h1 : (orphaned_specs s.requirements s.specifications).isEmpty <;>
    simp [check_orphaned_specifications, orphanNew, appendViolations, h1]

theorem b_check_principle_violations_shape (s : St) :
    check_principle_violations s = appendViolations s (principleNew s) := by
  by_cases h1 : (principle_violations_found s.principles s.specifications).isEmpty <;>
    simp [check_principle_violations, principleNew, appendViolations, h1]

theorem b_check_ambiguity_shape (s : St) :
    check_ambiguity s = appendViolations s (ambiguityNew s) := by
  by_cases h1 : (ambiguous_specs_found s.specifications).isEmpty <;>
    simp [check_ambiguity, ambiguityNew, appendViolations, h1]

theorem b_check_contradictions_shape (s : St) :
    check_contradictions s = appendViolations s (contradictionNew s) := by
  by_cases h1 : ((orderedPairs s.specifications).filter
      (fun e => are_contradictory e.1.text e.2.text)).isEmpty <;>
    simp [check_contradictions, contradictionNew, appendViolations, h1]

theorem b_check_completeness_shape (s : St) :
    check_completeness s = appendViolations s (completenessNew s) := by
  by_cases h1 : (missing_aspects s.requirements s.specifications).isEmpty <;>
    simp [check_completeness, completenessNew, appendViolations, h1]

theorem b_check_scope_creep_shape (s : St) :
    check_scope_creep s = appendViolations s [] := by
  simp [check_scope_creep, appendViolations]

theorem b_check_vagueness_shape (s : St) :
    check_vagueness s = appendViolations s (vaguenessNew s) := by
  by_cases h1 : (s.specifications.filter isVague).isEmpty <;>
    simp [check_vagueness, vaguenessNew, appendViolations, h1]

theorem b_check_testability_shape (s : St) :
    check_testability s = appendViolations s (testabilityNew s) := by
  by_cases h1 : (s.specifications.filter isUntestable).isEmpty <;>
    simp [check_testability, testabilityNew, appendViolations, h1]

theorem b_check_consistency_shape (s : St) :
    check_consistency s = appendViolations s (consistencyNew s) := by
  by_cases h1 : (consistency_issues s.specifications).isEmpty <;>
    simp [check_consistency, consistencyNew, appendViolations, h1]

theorem b_covNew_append (s : St) (l : List BViolation) :
    covNew (appendViolations s l) = covNew s := rfl

theorem b_orphanNew_append (s : St) (l : List BViolation) :
    orphanNew (appendViolations s l) = orphanNew s := rfl

theorem b_principleNew_append (s : St) (l : List BViolation) :
    principleNew (appendViolations s l) = principleNew s := rfl

theorem b_ambiguityNew_append (s : St) (l : List BViolation) :
    ambiguityNew (appendViolations s l) = ambiguityNew s := rfl

theorem b_contradictionNew_append (s : St) (l : List BViolation) :
    contradictionNew (appendViolations s l) = contradictionNew s := rfl

theorem b_completenessNew_append (s : St) (l : List BViolation) :
    completenessNew (appendViolations s l) = completenessNew s := rfl

theorem b_vaguenessNew_append (s : St) (l : List BViolation) :
    vaguenessNew (appendViolations s l) = vaguenessNew s := rfl

theorem b_testabilityNew_append (s : St) (l : List BViolation) :
    testabilityNew (appendViolations s l) = testabilityNew s := rfl

theorem b_consistencyNew_append (s : St) (l : List BViolation) :
    consistencyNew (appendViolations s l) = consistencyNew s := rfl

/-- The basic battery appends exactly batteryNew. -/
theorem runVerify_shape (s : St) :
    runVerify s = appendViolations s (batteryNew s) := by
  unfold runVerify
  rw [b_check_requirement_coverage_shape,
    b_check_orphaned_specifications_shape, b_orphanNew_append, b_appendViolations_append,
    b_check_principle_violations_shape, b_principleNew_append, b_appendViolations_append,
    b_check_ambiguity_shape, b_ambiguityNew_append, b_appendViolations_append,
    b_check_contradictions_shape, b_contradictionNew_append, b_appendViolations_append,
    b_check_completeness_shape, b_completenessNew_append, b_appendViolations_append,
    b_check_scope_creep_shape, b_appendViolations_append,
    b_check_vagueness_shape, b_vaguenessNew_append, b_appendViolations_append,
    b_check_testability_shape, b_testabilityNew_append, b_appendViolations_append,
    b_check_consistency_shape, b_consistencyNew_append, b_appendViolations_append]
  simp [batteryNew, List.append_assoc]

end Basic

theorem map_ite_nil {α β : Type} (f : α → β) (c : Prop) [Decidable c] (x : α) :
    (if c then ([] : List α) else [x]).map f = if c then [] else [f x] := by
  split <;> rfl

/-- The two batteries produce, on the same collections, violation lists that
agree on every shared field. -/
theorem batteryNew_core (reqs : List Requirement) (prins : List Principle)
    (specs : List SpecificationItem) :
    (batteryNew (St.init reqs prins specs)).map Violation.core
      = (Basic.batteryNew (Basic.St.init reqs prins specs)).map Basic.BViolation.core := by
  simp only [batteryNew, Basic.batteryNew, covNew, Basic.covNew, orphanNew,
    Basic.orphanNew, principleNew, Basic.principleNew, ambiguityNew, Basic.ambiguityNew,
    contradictionNew, Basic.contradictionNew, completenessNew, Basic.completenessNew,
    vaguenessNew, Basic.vaguenessNew, testabilityNew, Basic.testabilityNew,
    consistencyNew, Basic.consistencyNew, List.map_append, map_ite_nil]
  rfl

theorem severityCount_map_core (vs : List Violation) (sev : Severity) :
    severityCount vs sev =
      ((vs.map Violation.core).filter (fun c => c.severity == sev)).length := by
  unfold severityCount
  rw [List.filter_map, List.length_map]
  rfl

theorem severityCount_map_core_basic (vs : List Basic.BViolation) (sev : Severity) :
    Basic.severityCount vs sev =
      ((vs.map Basic.BViolation.core).filter (fun c => c.severity == sev)).length := by
  unfold Basic.severityCount
  rw [List.filter_map, List.length_map]
  rfl

theorem verdict_eq_of_core {vs : List Violation} {ws : List Basic.BViolation}
    (h : vs.map Violation.core = ws.map Basic.BViolation.core) :
    verdictLine vs = Basic.verdictLine ws := by
  have hc : ∀ sev, severityCount vs sev = Basic.severityCount ws sev := by
    intro sev
    rw [severityCount_map_core, severityCount_map_core_basic, h]
  unfold verdictLine Basic.verdictLine
  rw [hc Severity.CRITICAL, hc Severity.HIGH]

/-- C10: with deep analysis disabled, the enhanced battery run on any
extracted collections produces the same violation sequence as the basic
verifier on the same collections — same severities, categories, titles,
descriptions, evidence strings and line numbers, in the same order — and the
two reports derive the same verdict. -/
theorem claim_C10_basic_enhanced_equivalence (reqs : List Requirement)
    (prins : List Principle) (specs : List SpecificationItem) (e : Bool) (b k : String)
    (o : String → FetchOutcome) (σ : List String → List String) :
    ((runVerify ⟨e, false, b, k, o, σ⟩ (St.init reqs prins specs)).violations.map
        Violation.core
      = (Basic.runVerify (Basic.St.init reqs prins specs)).violations.map
          Basic.BViolation.core)
    ∧ verdictLine (runVerify ⟨e, false, b, k, o, σ⟩ (St.init reqs prins specs)).violations
      = Basic.verdictLine (Basic.runVerify (Basic.St.init reqs prins specs)).violations := by
  have henh := runVerify_disabled ⟨e, false, b, k, o, σ⟩ rfl (St.init reqs prins specs)
  have hbas := Basic.runVerify_shape (Basic.St.init reqs prins specs)
  have hval : (runVerify ⟨e, false, b, k, o, σ⟩ (St.init reqs prins specs)).violations.map
      Violation.core
      = (Basic.runVerify (Basic.St.init reqs prins specs)).violations.map
          Basic.BViolation.core := by
    rw [henh, hbas]
    show (batteryNew (St.init reqs prins specs)).map Violation.core
      = (Basic.batteryNew (Basic.St.init reqs prins specs)).map Basic.BViolation.core
    exact batteryNew_core reqs prins specs
  exact ⟨hval, verdict_eq_of_core hval⟩
